import Mathlib

/-!
Verification of the Ceremony Coordinator core (`phase1-coordinator/src/coordinator.rs`)
against its natural-language specification.

The façade functions of `Coordinator` are translated directly from
`coordinator.rs`.  The supporting modules (`coordinator_state.rs`,
`objects/round.rs`, `storage.rs` and the external cryptographic commands) are
not part of the provided sources; the operations the façade invokes on them are
modelled from the specification, each marked `Modelled from the spec:` in its
doc comment.  Rust's in-place mutation of `storage` and `state` is rendered as
explicit state passing: a façade call returns its result together with the
post-call `CoordinatorState` and `Storage`.
-/

namespace Ceremony

/-- Participant identity plus role, as in `objects/participant.rs`:
a contributor or a verifier, identified here by a numeric id. -/
inductive Participant where
  | Contributor (id : Nat)
  | Verifier (id : Nat)
deriving DecidableEq, Repr

/-- Returns true when the participant is a contributor (`Participant::is_contributor`). -/
def Participant.is_contributor : Participant → Bool
  | .Contributor _ => true
  | .Verifier _ => false

/-- Returns true when the participant is a verifier (`Participant::is_verifier`). -/
def Participant.is_verifier : Participant → Bool
  | .Contributor _ => false
  | .Verifier _ => true

/-- A task is a pair `(chunk_id, contribution_id)` (spec §3). -/
structure Task where
  chunk_id : Nat
  contribution_id : Nat
deriving DecidableEq, Repr

/-- The subset of `CoordinatorError` variants (coordinator.rs lines 25-171)
reachable from the embedded operations. -/
inductive CoordinatorError where
  | ChunkAlreadyComplete
  | ChunkIdInvalid
  | ChunkLockAlreadyAcquired
  | ChunkLockLimitReached
  | ChunkMissing
  | ChunkNotLockedOrByWrongParticipant
  | ContributionAlreadyVerified
  | ContributionFailed
  | ContributionHashMismatch
  | ContributionIdMismatch
  | ContributionLocatorAlreadyExists
  | ContributionLocatorMissing
  | ContributionMissing
  | ContributorsMissing
  | ExpectedContributor
  | ExpectedVerifier
  | NextRoundAlreadyInPrecommit
  | ParticipantHasNoRemainingTasks
  | ParticipantMissingPendingTask
  | ParticipantMissingDisposingTask
  | ParticipantNotFound
  | ParticipantUnauthorized
  | RoundAggregationFailed
  | RoundAlreadyAggregated
  | RoundAlreadyInitialized
  | RoundContributorsMissing
  | RoundContributorsNotUnique
  | RoundDoesNotExist
  | RoundFileMissing
  | RoundHeightMismatch
  | RoundLocatorAlreadyExists
  | RoundNotComplete
  | RoundNotReady
  | RoundShouldNotExist
  | RoundStateMissing
  | RoundVerifiersMissing
  | StorageFailed
  | StorageLocatorAlreadyExists
  | StorageLocatorMissing
  | StorageReaderFailed
  | StorageUpdateFailed
  | UnauthorizedChunkContributor
  | UnauthorizedChunkVerifier
  | VerificationFailed
  | VerifierMissing
deriving DecidableEq, Repr

instance {ε α : Type} [DecidableEq ε] [DecidableEq α] : DecidableEq (Except ε α) :=
  fun x y =>
    match x, y with
    | .ok a, .ok b =>
        if h : a = b then .isTrue (by rw [h]) else .isFalse (fun hc => h (Except.ok.inj hc))
    | .error e, .error f =>
        if h : e = f then .isTrue (by rw [h]) else .isFalse (fun hc => h (Except.error.inj hc))
    | .ok _, .error _ => .isFalse (fun hc => Except.noConfusion hc)
    | .error _, .ok _ => .isFalse (fun hc => Except.noConfusion hc)

/-- The coordinator's configuration (spec §6 Config; `environment.rs` is not
under src/, so only the parameters the façade reads are modelled). -/
structure Environment where
  number_of_chunks : Nat
  contributor_lock_chunk_limit : Nat
  verifier_lock_chunk_limit : Nat
  contributors_per_round : Nat
  verifiers_per_round : Nat
  coordinator_contributors : List Participant
  coordinator_verifiers : List Participant
deriving DecidableEq, Repr

/-- Modelled from the spec: a `Contribution` is a
`(contribution_id, contributor, verifier?, unverified_locator, verified_locator?)`
tuple (spec §3); the id is the position in the chunk's list. -/
structure Contribution where
  contributor_id : Option Participant
  contributed_location : Option String
  verifier_id : Option Participant
  verified_location : Option String
  verified : Bool
deriving DecidableEq, Repr

/-- Modelled from the spec: a `Chunk` holds an ordered list of contributions
and at most one lock holder (spec §3); `objects/chunk.rs` is not under src/. -/
structure Chunk where
  chunk_id : Nat
  lock_holder : Option Participant
  contributions : List Contribution
deriving DecidableEq, Repr

/-- Modelled from the spec: a `Round` is
`(round_height, started_at, finished_at?, contributors[], verifiers[], chunks[])`
(spec §3); `objects/round.rs` is not under src/. -/
structure Round where
  round_height : Nat
  started_at : Nat
  finished : Bool
  contributor_ids : List Participant
  verifier_ids : List Participant
  chunks : List Chunk
deriving DecidableEq, Repr

/-- Symbolic storage keys (spec §3 Locator; `storage.rs` is not under src/). -/
inductive Locator where
  | RoundHeight
  | CoordinatorState
  | RoundState (round_height : Nat)
  | RoundFile (round_height : Nat)
  | ContributionFile (round_height chunk_id contribution_id : Nat) (verified : Bool)
deriving DecidableEq, Repr

/-- Modelled from the spec: the total injective `Locator -> path` mapping
(spec §4.1 `to_path`). -/
def Locator.to_path : Locator → String
  | .RoundHeight => "./round_height"
  | .CoordinatorState => "./coordinator.json"
  | .RoundState h => "./round_" ++ toString h ++ "/state.json"
  | .RoundFile h => "./round_" ++ toString h ++ "/round.bin"
  | .ContributionFile h c i v =>
      "./round_" ++ toString h ++ "/chunk_" ++ toString c ++ "/contribution_" ++ toString i
        ++ (if v then ".verified" else ".unverified")

/-- Modelled from the spec: per-participant record with the task buckets and
held locks (spec §3 ParticipantInfo); `coordinator_state.rs` is not under src/. -/
structure ParticipantInfo where
  assigned : List Task
  pending : List Task
  completed : List Task
  disposing : List Task
  disposed : List Task
  locked_chunks : List Nat
deriving DecidableEq, Repr

/-- Modelled from the spec: the in-memory coordinator state — queues, rosters,
ban/drop bookkeeping, aggregation progress and the next-round precommit
(spec §4.3, §4.4); `coordinator_state.rs` is not under src/. -/
structure CoordinatorState where
  current_round_height : Nat
  queue_contributors : List (Participant × Nat)
  queue_verifiers : List (Participant × Nat)
  current_contributors : List (Participant × ParticipantInfo)
  current_verifiers : List (Participant × ParticipantInfo)
  banned : List Participant
  dropped : List Participant
  aggregating : Bool
  aggregated : Bool
  precommit : Option (List Participant × List Participant)
deriving DecidableEq, Repr

/-- Objects held by the storage layer (`storage.rs` `Object`, not under src/;
shapes from spec §6 Persisted layout). -/
inductive Object where
  | RoundHeight (h : Nat)
  | CoordinatorState (s : CoordinatorState)
  | RoundState (r : Round)
  | FileBytes (b : List Nat)
deriving DecidableEq, Repr

/-- Modelled from the spec: the key→object store (spec §4.1), rendered as an
association list. -/
def Storage := List (Locator × Object)

instance : DecidableEq Storage := by unfold Storage; infer_instance

/-- Modelled from the spec: lookup of a key's object (`get`, spec §4.1). -/
def Storage.getObj : Storage → Locator → Option Object
  | [], _ => none
  | (k, v) :: rest, l => if k = l then some v else Storage.getObj rest l

/-- Modelled from the spec: key-existence check (`exists`, spec §4.1). -/
def Storage.hasKey (s : Storage) (l : Locator) : Bool :=
  (s.getObj l).isSome

/-- Modelled from the spec: insert-or-replace used by `save` snapshots and the
external collaborators that write files. -/
def Storage.setKey : Storage → Locator → Object → Storage
  | [], l, o => [(l, o)]
  | (k, v) :: rest, l, o =>
      if k = l then (l, o) :: rest else (k, v) :: Storage.setKey rest l o

/-- Modelled from the spec: `insert` fails with a locator-already-exists error
when the key is taken (spec §4.1). -/
def Storage.insertObj (s : Storage) (l : Locator) (o : Object) :
    Except CoordinatorError Storage :=
  if s.hasKey l then .error .StorageLocatorAlreadyExists else .ok (s.setKey l o)

/-- Modelled from the spec: `update` fails with a locator-missing error when
the key is absent (spec §4.1). -/
def Storage.updateObj (s : Storage) (l : Locator) (o : Object) :
    Except CoordinatorError Storage :=
  if s.hasKey l then .ok (s.setKey l o) else .error .StorageLocatorMissing

/-- Modelled from the spec: `remove` is idempotent with respect to absent keys
(spec §4.1). -/
def Storage.removeKey : Storage → Locator → Storage
  | [], _ => []
  | (k, v) :: rest, l =>
      if k = l then Storage.removeKey rest l else (k, v) :: Storage.removeKey rest l

/-- Modelled from the spec: `reader` exposes a file's bytes (spec §4.1);
fails when the key is absent or does not hold file bytes. -/
def Storage.reader (s : Storage) (l : Locator) : Except CoordinatorError (List Nat) :=
  match s.getObj l with
  | some (.FileBytes b) => .ok b
  | some _ => .error .StorageReaderFailed
  | none => .error .StorageReaderFailed

/-! ### Round and chunk operations (modelled from spec §3, §4.2) -/

/-- Modelled from the spec: `Round::is_contributor` — membership of the frozen
contributor roster (spec §3 Round). -/
def Round.is_contributor (r : Round) (p : Participant) : Bool :=
  decide (p ∈ r.contributor_ids)

/-- Modelled from the spec: `Round::is_verifier` — membership of the frozen
verifier roster (spec §3 Round). -/
def Round.is_verifier (r : Round) (p : Participant) : Bool :=
  decide (p ∈ r.verifier_ids)

/-- Modelled from the spec: each chunk's chain has one initialization
contribution plus one per round contributor
(`Round::expected_number_of_contributions`). -/
def Round.expected_number_of_contributions (r : Round) : Nat :=
  r.contributor_ids.length + 1

/-- Modelled from the spec: `Round::chunk` — fetch the chunk with the given id;
chunk ids range over `[0, N)` (spec §3 Chunk). -/
def Round.chunk (r : Round) (chunk_id : Nat) : Except CoordinatorError Chunk :=
  match r.chunks.find? (fun ch => decide (ch.chunk_id = chunk_id)) with
  | some ch => .ok ch
  | none => .error .ChunkMissing

/-- Modelled from the spec: `Round::is_chunk_locked_by` — whether the chunk's
lock is held by the given participant. -/
def Round.is_chunk_locked_by (r : Round) (chunk_id : Nat) (p : Participant) : Bool :=
  match r.chunk chunk_id with
  | .ok ch => decide (ch.lock_holder = some p)
  | .error _ => false

/-- Modelled from the spec: the `current_contribution_id` cursor — the id of
the latest contribution in the chunk's ordered list (spec §3 Chunk). -/
def Chunk.current_contribution_id (c : Chunk) : Nat :=
  c.contributions.length - 1

/-- Modelled from the spec: `Chunk::next_contribution_id` — the id the next
appended contribution will take, failing once the chunk's chain is full. -/
def Chunk.next_contribution_id (c : Chunk) (expected : Nat) : Except CoordinatorError Nat :=
  if c.contributions.length < expected then .ok c.contributions.length
  else .error .ChunkAlreadyComplete

/-- Modelled from the spec: `Chunk::is_next_contribution_id` — sanity check
that the candidate id is one above the cursor and within the expected chain. -/
def Chunk.is_next_contribution_id (c : Chunk) (contribution_id expected : Nat) : Bool :=
  decide (contribution_id = c.current_contribution_id + 1) && decide (contribution_id < expected)

/-- Modelled from the spec: `Chunk::only_contributions_complete` — every
expected contribution of the chunk has been added (the final contribution is
the one at `expected - 1`, spec §4.2). -/
def Chunk.only_contributions_complete (c : Chunk) (expected : Nat) : Bool :=
  decide (c.contributions.length = expected)

/-- Replaces the chunk carrying the given id (helper for the round mutators). -/
def Round.set_chunk (r : Round) (chunk_id : Nat) (ch' : Chunk) : Round :=
  { r with chunks := r.chunks.map fun ch => if ch.chunk_id = chunk_id then ch' else ch }

/-- Modelled from the spec: the chunk-level contribution append — places the
contributor's output locator into the chunk at the next id and releases the
lock (spec §4.2 Contribution append). -/
def Round.add_contribution_to_chunk (r : Round) (chunk_id : Nat) (p : Participant)
    (path : String) : Except CoordinatorError Round :=
  match r.chunk chunk_id with
  | .error e => .error e
  | .ok ch =>
      let contrib : Contribution :=
        { contributor_id := some p, contributed_location := some path,
          verifier_id := none, verified_location := none, verified := false }
      .ok (r.set_chunk chunk_id
        { ch with contributions := ch.contributions ++ [contrib], lock_holder := none })

/-- Modelled from the spec: `Round::verify_contribution` — sets the verified
locator of the current contribution and releases the lock (spec §4.2
Verification record). -/
def Round.record_verification (r : Round) (chunk_id contribution_id : Nat)
    (p : Participant) (path : String) : Except CoordinatorError Round :=
  match r.chunk chunk_id with
  | .error e => .error e
  | .ok ch =>
      match ch.contributions[contribution_id]? with
      | none => .error .ContributionMissing
      | some contrib =>
          if contrib.verified then .error .ContributionAlreadyVerified
          else
            let contrib' :=
              { contrib with
                verifier_id := some p
                verified_location := some path
                verified := true }
            .ok (r.set_chunk chunk_id
              { ch with
                contributions := ch.contributions.set contribution_id contrib'
                lock_holder := none })

/-- Modelled from the spec: a round is complete when every chunk holds the
expected number of contributions, all verified (spec §3 Round lifecycle). -/
def Round.is_complete (r : Round) : Bool :=
  r.chunks.all fun ch =>
    decide (ch.contributions.length = r.expected_number_of_contributions)
      && ch.contributions.all (·.verified)

/-- Modelled from the spec: `Round::try_finish` — seals the round when all
chunks are complete (spec §3 Round lifecycle). -/
def Round.try_finish (r : Round) : Round :=
  if r.is_complete then { r with finished := true } else r

/-- Number of chunk locks currently held by the participant in this round. -/
def Round.number_of_locks_by (r : Round) (p : Participant) : Nat :=
  (r.chunks.filter fun ch => decide (ch.lock_holder = some p)).length

/-- Modelled from the spec: `Round::new` — a fresh round whose chunks each
carry the pre-verified initialization contribution 0 (spec §3 Contribution). -/
def Round.new (env : Environment) (round_height started_at : Nat)
    (contributors verifiers : List Participant) : Round :=
  { round_height := round_height, started_at := started_at, finished := false,
    contributor_ids := contributors, verifier_ids := verifiers,
    chunks := (List.range env.number_of_chunks).map fun c =>
      { chunk_id := c, lock_holder := none,
        contributions := [{
          contributor_id := none
          contributed_location := none
          verifier_id := none
          verified_location := some (Locator.ContributionFile round_height c 0 true).to_path
          verified := true }] } }

/-- Modelled from the spec: `Round::try_lock_chunk` — lock acquisition succeeds
iff the chunk exists, has no holder, the participant is in the matching role
set and is under the per-participant lock limit; the three locators returned
depend on the role (spec §4.2 Lock acquisition). -/
def Round.try_lock_chunk (r : Round) (env : Environment) (chunk_id : Nat)
    (p : Participant) : Except CoordinatorError (Locator × Locator × Locator × Round) :=
  match r.chunk chunk_id with
  | .error e => .error e
  | .ok ch =>
      if ch.lock_holder.isSome then .error .ChunkLockAlreadyAcquired
      else if p.is_contributor && ! r.is_contributor p then .error .UnauthorizedChunkContributor
      else if p.is_verifier && ! r.is_verifier p then .error .UnauthorizedChunkVerifier
      else if (if p.is_contributor then env.contributor_lock_chunk_limit
               else env.verifier_lock_chunk_limit) ≤ r.number_of_locks_by p then
        .error .ChunkLockLimitReached
      else
        let h := r.round_height
        let cur := ch.current_contribution_id
        let r' := r.set_chunk chunk_id { ch with lock_holder := some p }
        if p.is_contributor then
          .ok (Locator.ContributionFile h chunk_id (cur - 1) true,
               Locator.ContributionFile h chunk_id cur true,
               Locator.ContributionFile h chunk_id (cur + 1) false, r')
        else
          .ok (Locator.ContributionFile h chunk_id (cur - 1) true,
               Locator.ContributionFile h chunk_id cur false,
               (if cur = r.expected_number_of_contributions - 1 then
                  Locator.ContributionFile (h + 1) chunk_id 0 true
                else Locator.ContributionFile h chunk_id cur true), r')

/-! ### Coordinator state operations (modelled from spec §4.3) -/

/-- First-match lookup in a participant-keyed association list. -/
def lookup_info : List (Participant × ParticipantInfo) → Participant → Option ParticipantInfo
  | [], _ => none
  | (q, j) :: rest, p => if q = p then some j else lookup_info rest p

/-- Replaces the first entry for the given participant, leaving other entries
untouched. -/
def update_info : List (Participant × ParticipantInfo) → Participant → ParticipantInfo →
    List (Participant × ParticipantInfo)
  | [], _, _ => []
  | (q, j) :: rest, p, i =>
      if q = p then (q, i) :: rest else (q, j) :: update_info rest p i

/-- Modelled from the spec: `CoordinatorState::is_current_contributor` — the
participant is a contributor listed in the current-round roster and not
dropped or finished (dropped and finished participants leave the roster). -/
def CoordinatorState.is_current_contributor (s : CoordinatorState) (p : Participant) : Bool :=
  p.is_contributor && (lookup_info s.current_contributors p).isSome

/-- Modelled from the spec: `CoordinatorState::is_current_verifier`. -/
def CoordinatorState.is_current_verifier (s : CoordinatorState) (p : Participant) : Bool :=
  p.is_verifier && (lookup_info s.current_verifiers p).isSome

/-- The participant's info record, looked up in the roster of its role. -/
def CoordinatorState.get_info (s : CoordinatorState) (p : Participant) : Option ParticipantInfo :=
  if p.is_contributor then lookup_info s.current_contributors p
  else lookup_info s.current_verifiers p

/-- Writes back the participant's info record into the roster of its role. -/
def CoordinatorState.set_info (s : CoordinatorState) (p : Participant)
    (i : ParticipantInfo) : CoordinatorState :=
  if p.is_contributor then
    { s with current_contributors := update_info s.current_contributors p i }
  else
    { s with current_verifiers := update_info s.current_verifiers p i }

/-- Modelled from the spec: `CoordinatorState::fetch_task` — returns the
lowest-ordered task from the participant's assigned bucket (the embedding
keeps the bucket ordered and takes its head), moves it to pending; fails
when no task remains (spec §4.3 Task dispensing). -/
def CoordinatorState.fetch_task (s : CoordinatorState) (p : Participant) :
    Except CoordinatorError (Task × CoordinatorState) :=
  match s.get_info p with
  | none => .error .ParticipantNotFound
  | some info =>
      match info.assigned with
      | [] => .error .ParticipantHasNoRemainingTasks
      | t :: rest =>
          .ok (t, s.set_info p { info with assigned := rest, pending := info.pending ++ [t] })

/-- Modelled from the spec: `CoordinatorState::rollback_pending_task` — moves
the task back from pending to assigned (spec §4.3 Rollback). -/
def CoordinatorState.rollback_pending_task (s : CoordinatorState) (p : Participant)
    (chunk_id contribution_id : Nat) : Except CoordinatorError CoordinatorState :=
  match s.get_info p with
  | none => .error .ParticipantNotFound
  | some info =>
      let t : Task := ⟨chunk_id, contribution_id⟩
      if t ∈ info.pending then
        .ok (s.set_info p
          { info with assigned := t :: info.assigned, pending := info.pending.erase t })
      else .error .ParticipantMissingPendingTask

/-- Modelled from the spec: `CoordinatorState::acquired_lock` — records that
the participant now holds the chunk's lock. -/
def CoordinatorState.acquired_lock (s : CoordinatorState) (p : Participant)
    (chunk_id : Nat) : Except CoordinatorError CoordinatorState :=
  match s.get_info p with
  | none => .error .ParticipantNotFound
  | some info =>
      .ok (s.set_info p { info with locked_chunks := info.locked_chunks ++ [chunk_id] })

/-- Modelled from the spec: `CoordinatorState::lookup_pending_task` — the
participant's pending task for the chunk, if any. -/
def CoordinatorState.lookup_pending_task (s : CoordinatorState) (p : Participant)
    (chunk_id : Nat) : Except CoordinatorError (Option Task) :=
  match s.get_info p with
  | none => .error .ParticipantNotFound
  | some info => .ok (info.pending.find? fun t => decide (t.chunk_id = chunk_id))

/-- Modelled from the spec: `CoordinatorState::lookup_disposing_task` — the
participant's disposing task for the chunk, if any. -/
def CoordinatorState.lookup_disposing_task (s : CoordinatorState) (p : Participant)
    (chunk_id : Nat) : Except CoordinatorError (Option Task) :=
  match s.get_info p with
  | none => .error .ParticipantNotFound
  | some info => .ok (info.disposing.find? fun t => decide (t.chunk_id = chunk_id))

/-- Modelled from the spec: `CoordinatorState::completed_task` — moves the
task from pending to completed and releases the recorded lock (spec §4.3
Task completion). -/
def CoordinatorState.completed_task (s : CoordinatorState) (p : Participant)
    (chunk_id contribution_id : Nat) : Except CoordinatorError CoordinatorState :=
  match s.get_info p with
  | none => .error .ParticipantNotFound
  | some info =>
      let t : Task := ⟨chunk_id, contribution_id⟩
      if t ∈ info.pending then
        .ok (s.set_info p
          { info with
            pending := info.pending.erase t
            completed := info.completed ++ [t]
            locked_chunks := info.locked_chunks.erase chunk_id })
      else .error .ParticipantMissingPendingTask

/-- Modelled from the spec: `CoordinatorState::disposed_task` — moves the task
from disposing to its terminal disposed bucket (spec §3 ParticipantInfo). -/
def CoordinatorState.disposed_task (s : CoordinatorState) (p : Participant)
    (chunk_id contribution_id : Nat) : Except CoordinatorError CoordinatorState :=
  match s.get_info p with
  | none => .error .ParticipantNotFound
  | some info =>
      let t : Task := ⟨chunk_id, contribution_id⟩
      if t ∈ info.disposing then
        .ok (s.set_info p
          { info with
            disposing := info.disposing.erase t
            disposed := info.disposed ++ [t]
            locked_chunks := info.locked_chunks.erase chunk_id })
      else .error .ParticipantMissingDisposingTask

/-- Modelled from the spec: `CoordinatorState::unban_participant` — removes
the participant from the banned set; on an unbanned participant the set is
unchanged. -/
def CoordinatorState.unban_participant (s : CoordinatorState) (p : Participant) :
    CoordinatorState :=
  { s with banned := s.banned.erase p }

/-- Modelled from the spec: the current round is finished when every
current-round participant has no assigned, pending or disposing work left
(spec §4.5 steps 3-4). -/
def CoordinatorState.is_current_round_finished (s : CoordinatorState) : Bool :=
  (s.current_contributors.all fun q =>
      q.2.assigned.isEmpty && q.2.pending.isEmpty && q.2.disposing.isEmpty)
    && (s.current_verifiers.all fun q =>
      q.2.assigned.isEmpty && q.2.pending.isEmpty && q.2.disposing.isEmpty)

/-- Modelled from the spec: whether the current round has been aggregated
(spec §4.4 Aggregated state). -/
def CoordinatorState.is_current_round_aggregated (s : CoordinatorState) : Bool :=
  s.aggregated

/-- Modelled from the spec: marks the start of aggregation for the current
round (spec §4.4 Aggregating state). -/
def CoordinatorState.aggregating_current_round (s : CoordinatorState) : CoordinatorState :=
  { s with aggregating := true }

/-- Modelled from the spec: marks the current round aggregated (spec §4.4). -/
def CoordinatorState.aggregated_current_round (s : CoordinatorState) : CoordinatorState :=
  { s with aggregating := false, aggregated := true }

/-- Modelled from the spec: `CoordinatorState::precommit_next_round` —
atomically selects the highest-scoring queued contributors and verifiers (up
to the per-round limits), requires both non-empty and disjoint, and returns
the rosters without mutating current-round state (spec §4.3 Next-round
precommit). -/
def CoordinatorState.precommit_next_round (s : CoordinatorState) (env : Environment)
    (_next_height : Nat) :
    Except CoordinatorError ((List Participant × List Participant) × CoordinatorState) :=
  if s.precommit.isSome then .error .NextRoundAlreadyInPrecommit
  else
    let cs := ((s.queue_contributors.insertionSort fun a b => b.2 ≤ a.2).map Prod.fst).take
      env.contributors_per_round
    let vs := ((s.queue_verifiers.insertionSort fun a b => b.2 ≤ a.2).map Prod.fst).take
      env.verifiers_per_round
    if cs.isEmpty then .error .RoundContributorsMissing
    else if vs.isEmpty then .error .RoundVerifiersMissing
    else if cs.any fun p => decide (p ∈ vs) then .error .RoundContributorsNotUnique
    else .ok ((cs, vs), { s with precommit := some (cs, vs) })

/-- Initial tasks dispensed to the i-th contributor of a fresh round:
one task per chunk, at contribution ids `i + 1` (spec §4.3, modelled). -/
def initial_tasks (env : Environment) (i : Nat) : List Task :=
  (List.range env.number_of_chunks).map fun c => ⟨c, i + 1⟩

/-- Modelled from the spec: `CoordinatorState::commit_next_round` — finalizes
the precommit, advancing the state to the new round height with the
precommitted rosters promoted out of the queue (spec §4.3). -/
def CoordinatorState.commit_next_round (s : CoordinatorState) (env : Environment) :
    CoordinatorState :=
  match s.precommit with
  | none => s
  | some (cs, vs) =>
      { s with
        current_round_height := s.current_round_height + 1
        precommit := none
        aggregating := false
        aggregated := false
        current_contributors := (cs.enum.map fun q =>
          (q.2, { assigned := initial_tasks env q.1, pending := [], completed := [],
                  disposing := [], disposed := [], locked_chunks := [] }))
        current_verifiers := (vs.map fun p =>
          (p, { assigned := [], pending := [], completed := [],
                disposing := [], disposed := [], locked_chunks := [] }))
        queue_contributors := s.queue_contributors.filter fun q => decide (q.1 ∉ cs)
        queue_verifiers := s.queue_verifiers.filter fun q => decide (q.1 ∉ vs) }

/-- Modelled from the spec: `CoordinatorState::rollback_next_round` — discards
the precommit so the current round remains live (spec §4.4). -/
def CoordinatorState.rollback_next_round (s : CoordinatorState) : CoordinatorState :=
  { s with precommit := none }

/-- Modelled from the spec: `CoordinatorState::save` — persists a fresh
snapshot of the coordinator state (spec §4.5). -/
def CoordinatorState.save (s : CoordinatorState) (storage : Storage) : Storage :=
  storage.setKey .CoordinatorState (.CoordinatorState s)

/-! ### External collaborators (modelled from spec §6) -/

/-- Content written for chunk `c` of round `h` by initialization. -/
def init_bytes (h c : Nat) : List Nat := [h, c]

/-- Modelled from the spec: `Initialization::run` writes the two initial
contribution files for a chunk — `ContributionFile(h, c, 0, true)` and
`ContributionFile(h+1, c, 0, true)` (spec §6, §4.4). -/
def Initialization.run (storage : Storage) (h c : Nat) : Storage :=
  (storage.setKey (.ContributionFile h c 0 true) (.FileBytes (init_bytes h c))).setKey
    (.ContributionFile (h + 1) c 0 true) (.FileBytes (init_bytes h c))

/-- Modelled from the spec: `Aggregation::run` produces `RoundFile(h)` from
the verified chunks of round `h` (spec §6). -/
def Aggregation.run (storage : Storage) (r : Round) : Storage :=
  storage.setKey (.RoundFile r.round_height) (.FileBytes [r.round_height])

/-! ### Coordinator façade, translated from `coordinator.rs`

Each function takes the pre-call `CoordinatorState` and `Storage` explicitly
and threads them through; `hash` stands for the external `calculate_hash`
routine (spec §6). -/

namespace Coordinator

/-- Translation of `Coordinator::load_current_round_height` (coordinator.rs 2070-2079):
fetch the round height from storage; any other object shape is
`StorageFailed`. -/
def load_current_round_height (storage : Storage) : Except CoordinatorError Nat :=
  match storage.getObj .RoundHeight with
  | some (.RoundHeight h) => .ok h
  | some _ => .error .StorageFailed
  | none => .error .StorageFailed

/-- Translation of `Coordinator::load_round` (coordinator.rs 2090-2107): a round exists only
when the ceremony has started and the height is at most the current one. -/
def load_round (storage : Storage) (round_height : Nat) : Except CoordinatorError Round :=
  match load_current_round_height storage with
  | .error e => .error e
  | .ok current =>
      if current ≠ 0 ∧ round_height ≤ current then
        match storage.getObj (.RoundState round_height) with
        | some (.RoundState r) => .ok r
        | some _ => .error .StorageFailed
        | none => .error .StorageFailed
      else .error .RoundDoesNotExist

/-- Translation of `Coordinator::load_current_round` (coordinator.rs 2081-2088). -/
def load_current_round (storage : Storage) : Except CoordinatorError Round :=
  match load_current_round_height storage with
  | .error e => .error e
  | .ok h => load_round storage h

/-- Translation of `Coordinator::current_round_height` (coordinator.rs 782-802): height 0 is
returned without checking for round data; a nonzero height requires
`RoundState(h)` to exist, else `StorageFailed`. -/
def current_round_height (storage : Storage) : Except CoordinatorError Nat :=
  match load_current_round_height storage with
  | .error e => .error e
  | .ok h =>
      if h ≠ 0 then
        if storage.hasKey (.RoundState h) then .ok h else .error .StorageFailed
      else .ok 0

/-- Translation of `Coordinator::try_lock_chunk` (coordinator.rs 1272-1309): the chunk-id
guard rejects only ids strictly greater than `number_of_chunks`, then the
round is loaded, the round-level lock is attempted, and the updated round is
written back. -/
def try_lock_chunk (env : Environment) (storage : Storage) (chunk_id : Nat)
    (participant : Participant) :
    Except CoordinatorError (String × String × String × Storage) :=
  if chunk_id > env.number_of_chunks then .error .ChunkIdInvalid
  else
    match load_current_round_height storage with
    | .error e => .error e
    | .ok current_round_height =>
        match load_current_round storage with
        | .error e => .error e
        | .ok round =>
            match round.try_lock_chunk env chunk_id participant with
            | .error e => .error e
            | .ok (prev, cur, next, round') =>
                match storage.updateObj (.RoundState current_round_height)
                    (.RoundState round') with
                | .ok storage' => .ok (prev.to_path, cur.to_path, next.to_path, storage')
                | .error _ => .error .StorageUpdateFailed

/-- Translation of `Coordinator::try_lock` (coordinator.rs 861-911): authorizes the caller,
fetches a task, attempts the chunk lock; on failure the fetched task is
rolled back to assigned and the state saved before returning the error
unchanged. -/
def try_lock (env : Environment) (state : CoordinatorState) (storage : Storage)
    (participant : Participant) :
    Except CoordinatorError (Nat × String × String × String) × CoordinatorState × Storage :=
  if ! state.is_current_contributor participant && ! state.is_current_verifier participant then
    (.error .ParticipantUnauthorized, state, storage)
  else
    match state.fetch_task participant with
    | .error e => (.error e, state, storage)
    | .ok (task, state₁) =>
        match try_lock_chunk env storage task.chunk_id participant with
        | .ok (prev, cur, next, storage') =>
            match state₁.acquired_lock participant task.chunk_id with
            | .error e => (.error e, state₁, storage')
            | .ok state₂ =>
                (.ok (task.chunk_id, prev, cur, next), state₂, state₂.save storage')
        | .error e =>
            match state₁.rollback_pending_task participant task.chunk_id
                task.contribution_id with
            | .error e' => (.error e', state₁, storage)
            | .ok state₂ => (.error e, state₂, state₂.save storage)

/-- Translation of `Coordinator::add_contribution` (coordinator.rs 1323-1411): authorizes the
contributor and its lock, computes the next contribution id, then requires
the first 64 bytes of the uploaded response file to equal the hash of the
challenge file before appending the contribution and writing the round back. -/
def add_contribution (hash : List Nat → List Nat) (storage : Storage) (chunk_id : Nat)
    (participant : Participant) : Except CoordinatorError (String × Nat × Storage) :=
  match load_current_round_height storage with
  | .error e => .error e
  | .ok current_round_height =>
      match load_current_round storage with
      | .error e => .error e
      | .ok round =>
          if ! round.is_contributor participant then .error .UnauthorizedChunkContributor
          else if ! round.is_chunk_locked_by chunk_id participant then
            .error .ChunkNotLockedOrByWrongParticipant
          else
            let expected := round.expected_number_of_contributions
            match round.chunk chunk_id with
            | .error e => .error e
            | .ok chunk =>
                match chunk.next_contribution_id expected with
                | .error e => .error e
                | .ok contribution_id =>
                    if ! chunk.is_next_contribution_id contribution_id expected then
                      .error .ContributionIdMismatch
                    else
                      let challenge_file_locator := Locator.ContributionFile
                        current_round_height chunk_id chunk.current_contribution_id true
                      let response_file_locator := Locator.ContributionFile
                        current_round_height chunk_id contribution_id false
                      match storage.reader challenge_file_locator with
                      | .error e => .error e
                      | .ok challenge_bytes =>
                          match storage.reader response_file_locator with
                          | .error e => .error e
                          | .ok response_bytes =>
                              if response_bytes.length < 64 then .error .StorageReaderFailed
                              else if response_bytes.take 64 ≠ hash challenge_bytes then
                                .error .ContributionHashMismatch
                              else
                                match round.add_contribution_to_chunk chunk_id participant
                                    response_file_locator.to_path with
                                | .error e => .error e
                                | .ok round' =>
                                    match storage.updateObj
                                        (.RoundState current_round_height)
                                        (.RoundState round') with
                                    | .ok storage' =>
                                        .ok (response_file_locator.to_path,
                                          contribution_id, storage')
                                    | .error _ => .error .StorageUpdateFailed

/-- Translation of `Coordinator::try_contribute` (coordinator.rs 926-996): validates role and
chunk id, authorizes the contributor, then either disposes the task (removing
the uploaded response) or adds the contribution; when `add_contribution`
fails the just-uploaded response file is removed and the error returned — the
pending task is not touched. -/
def try_contribute (env : Environment) (hash : List Nat → List Nat)
    (state : CoordinatorState) (storage : Storage) (participant : Participant)
    (chunk_id : Nat) :
    Except CoordinatorError String × CoordinatorState × Storage :=
  if ! participant.is_contributor then (.error .ExpectedContributor, state, storage)
  else if chunk_id > env.number_of_chunks then (.error .ChunkIdInvalid, state, storage)
  else if ! state.is_current_contributor participant then
    (.error .ParticipantUnauthorized, state, storage)
  else
    match load_current_round_height storage with
    | .error e => (.error e, state, storage)
    | .ok round_height =>
        match state.lookup_disposing_task participant chunk_id with
        | .error e => (.error e, state, storage)
        | .ok (some task) =>
            (match state.disposed_task participant chunk_id task.contribution_id with
            | .error e => (.error e, state, storage)
            | .ok state' =>
                let response := Locator.ContributionFile round_height chunk_id
                  task.contribution_id false
                (.ok response.to_path, state', storage.removeKey response))
        | .ok none =>
            match state.lookup_pending_task participant chunk_id with
            | .error e => (.error e, state, storage)
            | .ok (some task) =>
                (match add_contribution hash storage chunk_id participant with
                | .ok (locator, contribution_id, storage') =>
                    (match state.completed_task participant chunk_id contribution_id with
                    | .error e => (.error e, state, storage')
                    | .ok state' => (.ok locator, state', state'.save storage'))
                | .error e =>
                    let response := Locator.ContributionFile round_height chunk_id
                      task.contribution_id false
                    (.error e, state, storage.removeKey response))
            | .ok none => (.error .ContributionFailed, state, storage)

/-- The next-challenge locator selected by `Coordinator::verify_contribution`
(coordinator.rs 1459-1467): the verified output goes to the next round's
contribution 0 when this is the chunk's final contribution. -/
def next_challenge_locator (current_round_height chunk_id : Nat) (chunk : Chunk)
    (expected : Nat) : Locator :=
  if chunk.only_contributions_complete expected then
    .ContributionFile (current_round_height + 1) chunk_id 0 true
  else
    .ContributionFile current_round_height chunk_id chunk.current_contribution_id true

/-- Translation of `Coordinator::verify_contribution` (coordinator.rs 1426-1515): authorizes
the verifier and its lock, selects the next-challenge locator, requires the
saved response hash (first 64 bytes of the next challenge) to equal the hash
of the response file, then records the verification and writes the round
back. -/
def verify_contribution (hash : List Nat → List Nat) (storage : Storage)
    (chunk_id : Nat) (participant : Participant) :
    Except CoordinatorError (Nat × Storage) :=
  match load_current_round_height storage with
  | .error e => .error e
  | .ok current_round_height =>
      match load_current_round storage with
      | .error e => .error e
      | .ok round =>
          if ! round.is_verifier participant then .error .UnauthorizedChunkContributor
          else if ! round.is_chunk_locked_by chunk_id participant then
            .error .ChunkNotLockedOrByWrongParticipant
          else
            match round.chunk chunk_id with
            | .error e => .error e
            | .ok chunk =>
                let contribution_id := chunk.current_contribution_id
                let next_challenge := next_challenge_locator current_round_height chunk_id
                  chunk round.expected_number_of_contributions
                match storage.reader
                    (.ContributionFile current_round_height chunk_id contribution_id false) with
                | .error e => .error e
                | .ok response_bytes =>
                    match storage.reader next_challenge with
                    | .error e => .error e
                    | .ok next_challenge_bytes =>
                        if hash response_bytes ≠ next_challenge_bytes.take 64 then
                          .error .ContributionHashMismatch
                        else
                          match round.record_verification chunk_id contribution_id
                              participant next_challenge.to_path with
                          | .error e => .error e
                          | .ok round' =>
                              match storage.updateObj (.RoundState current_round_height)
                                  (.RoundState round') with
                              | .ok storage' => .ok (contribution_id, storage')
                              | .error _ => .error .StorageUpdateFailed

/-- Translation of `Coordinator::try_verify` (coordinator.rs 1006-1096): validates role and
chunk id, authorizes the verifier, then either disposes the task (removing
the uploaded next challenge) or records the verification; on failure the
uploaded next-challenge file is removed and the error returned. -/
def try_verify (env : Environment) (hash : List Nat → List Nat)
    (state : CoordinatorState) (storage : Storage) (participant : Participant)
    (chunk_id : Nat) :
    Except CoordinatorError Unit × CoordinatorState × Storage :=
  if ! participant.is_verifier then (.error .ExpectedVerifier, state, storage)
  else if chunk_id > env.number_of_chunks then (.error .ChunkIdInvalid, state, storage)
  else if ! state.is_current_verifier participant then
    (.error .ParticipantUnauthorized, state, storage)
  else
    match state.lookup_disposing_task participant chunk_id with
    | .error e => (.error e, state, storage)
    | .ok (some task) =>
        (match state.disposed_task participant chunk_id task.contribution_id with
        | .error e => (.error e, state, storage)
        | .ok state' =>
            match load_current_round storage with
            | .error e => (.error e, state', storage)
            | .ok round =>
                let is_final := decide
                  (task.contribution_id = round.expected_number_of_contributions - 1)
                let next_challenge := if is_final then
                    Locator.ContributionFile (round.round_height + 1) chunk_id 0 true
                  else
                    Locator.ContributionFile round.round_height chunk_id
                      task.contribution_id true
                (.ok (), state', storage.removeKey next_challenge))
    | .ok none =>
        match state.lookup_pending_task participant chunk_id with
        | .error e => (.error e, state, storage)
        | .ok (some task) =>
            (match verify_contribution hash storage chunk_id participant with
            | .ok (contribution_id, storage') =>
                (match state.completed_task participant chunk_id contribution_id with
                | .error e => (.error e, state, storage')
                | .ok state' => (.ok (), state', state'.save storage'))
            | .error e =>
                match load_current_round storage with
                | .error e' => (.error e', state, storage)
                | .ok round =>
                    let is_final := decide
                      (task.contribution_id = round.expected_number_of_contributions - 1)
                    let next_challenge := if is_final then
                        Locator.ContributionFile (round.round_height + 1) chunk_id 0 true
                      else
                        Locator.ContributionFile round.round_height chunk_id
                          task.contribution_id true
                    (.error e, state, storage.removeKey next_challenge))
        | .ok none => (.error .VerificationFailed, state, storage)

/-- Translation of `Coordinator::aggregate_contributions` (coordinator.rs 1528-1600): refuses
on round 0, on missing current round state, on an already-present next round
state, and on an already-present round file; checks every chunk's final
contributions and the round's completeness, then runs aggregation and checks
the round file now exists. -/
def aggregate_contributions (env : Environment) (storage : Storage) :
    Except CoordinatorError Storage :=
  match load_current_round_height storage with
  | .error e => .error e
  | .ok current_round_height =>
      if current_round_height = 0 then .error .RoundDoesNotExist
      else if ! storage.hasKey (.RoundState current_round_height) then
        .error .RoundStateMissing
      else if storage.hasKey (.RoundState (current_round_height + 1)) then
        .error .RoundShouldNotExist
      else if storage.hasKey (.RoundFile current_round_height) then
        .error .RoundLocatorAlreadyExists
      else
        match load_current_round storage with
        | .error e => .error e
        | .ok round =>
            let contribution_id := round.expected_number_of_contributions - 1
            if ! (List.range env.number_of_chunks).all (fun c =>
                storage.hasKey (.ContributionFile current_round_height c contribution_id false)
                  && storage.hasKey (.ContributionFile (current_round_height + 1) c 0 true)) then
              .error .ContributionMissing
            else if ! round.is_complete then .error .RoundNotComplete
            else
              let storage' := Aggregation.run storage round
              if ! storage'.hasKey (.RoundFile current_round_height) then
                .error .RoundFileMissing
              else .ok storage'

/-- Translation of `Coordinator::try_aggregate` (coordinator.rs 1102-1165): refuses on a
round-height mismatch between storage and state, when the round is not
finished, and when it is already aggregated; otherwise marks aggregation
in progress and attempts it, marking the state aggregated on success. -/
def try_aggregate (env : Environment) (state : CoordinatorState) (storage : Storage) :
    Except CoordinatorError Unit × CoordinatorState × Storage :=
  match load_current_round_height storage with
  | .error e => (.error e, state, storage)
  | .ok height_in_storage =>
      if height_in_storage ≠ state.current_round_height then
        (.error .RoundHeightMismatch, state, storage)
      else if ! state.is_current_round_finished then (.error .RoundNotReady, state, storage)
      else if state.is_current_round_aggregated then
        (.error .RoundAlreadyAggregated, state, storage)
      else
        let state₁ := state.aggregating_current_round
        match aggregate_contributions env storage with
        | .ok storage' =>
            let state₂ := state₁.aggregated_current_round
            if ! state₂.is_current_round_aggregated then
              (.error .RoundAggregationFailed, state₂, storage')
            else (.ok (), state₂, storage')
        | .error e => (.error e, state₁, storage)

/-- The per-chunk initialization loop of `Coordinator::next_round`
(coordinator.rs 1682-1716): for each chunk, checks neither initial
contribution file exists, runs `Initialization`, and checks both now exist.
Rust mutates the storage in place, so a failure keeps the files written for
the already-processed chunks: the result pairs the outcome with the
post-loop storage. -/
def init_chunks (h : Nat) : Storage → List Nat → (Except CoordinatorError Unit) × Storage
  | storage, [] => (.ok (), storage)
  | storage, c :: rest =>
      if storage.hasKey (.ContributionFile h c 0 true) then
        (.error .ContributionLocatorAlreadyExists, storage)
      else if storage.hasKey (.ContributionFile (h + 1) c 0 true) then
        (.error .ContributionLocatorAlreadyExists, storage)
      else
        let storage₁ := Initialization.run storage h c
        if ! storage₁.hasKey (.ContributionFile h c 0 true) then
          (.error .ContributionLocatorMissing, storage₁)
        else if ! storage₁.hasKey (.ContributionFile (h + 1) c 0 true) then
          (.error .ContributionLocatorMissing, storage₁)
        else init_chunks h storage₁ rest

/-- The common tail of `Coordinator::next_round` (coordinator.rs 1740-1790):
checks the new round does not exist, that every chunk's next-round
contribution 0 exists, inserts the new round and bumps the stored height.
The result pairs the outcome with the post-call storage (a failed `insert`
leaves it unchanged; a failed height `update` keeps the inserted round). -/
def next_round_tail (env : Environment) (storage : Storage)
    (current_round_height started_at : Nat)
    (contributors verifiers : List Participant) :
    (Except CoordinatorError Nat) × Storage :=
  let new_height := current_round_height + 1
  if storage.hasKey (.RoundState new_height) then
    (.error .RoundAlreadyInitialized, storage)
  else if ! (List.range env.number_of_chunks).all (fun c =>
      storage.hasKey (.ContributionFile new_height c 0 true)) then
    (.error .ContributionLocatorMissing, storage)
  else
    let new_round := Round.new env new_height started_at contributors verifiers
    match storage.insertObj (.RoundState new_height) (.RoundState new_round) with
    | .error e => (.error e, storage)
    | .ok storage₁ =>
        match storage₁.updateObj .RoundHeight (.RoundHeight new_height) with
        | .error e => (.error e, storage₁)
        | .ok storage₂ => (.ok new_height, storage₂)

/-- Translation of `Coordinator::next_round` (coordinator.rs 1616-1791): requires non-empty
rosters; at stored height 0 it initializes every chunk, seals round 0 as
finished and stores it (no aggregation is involved); at a nonzero height it
requires the aggregated round file; in both cases it then creates the new
round and sets the stored height to `current + 1`.  Rust mutates the storage
in place, so the result pairs the outcome with the post-call storage: a
failure partway keeps the writes already performed (initialization files of
earlier chunks, the round-0 insert). -/
def next_round (env : Environment) (storage : Storage) (started_at : Nat)
    (contributors verifiers : List Participant) :
    (Except CoordinatorError Nat) × Storage :=
  if contributors.isEmpty then (.error .ContributorsMissing, storage)
  else if verifiers.isEmpty then (.error .VerifierMissing, storage)
  else
    match load_current_round_height storage with
    | .error e => (.error e, storage)
    | .ok current_round_height =>
        if current_round_height = 0 then
          if storage.hasKey (.RoundState current_round_height) then
            (.error .RoundShouldNotExist, storage)
          else if storage.hasKey (.RoundState (current_round_height + 1)) then
            (.error .RoundShouldNotExist, storage)
          else
            match env.coordinator_verifiers.head? with
            | none => (.error .VerifierMissing, storage)
            | some v =>
                let round0 := Round.new env current_round_height started_at [] [v]
                match init_chunks current_round_height storage
                    (List.range env.number_of_chunks) with
                | (.error e, storage₁) => (.error e, storage₁)
                | (.ok _, storage₁) =>
                    let round0' := round0.try_finish
                    match storage₁.insertObj (.RoundState current_round_height)
                        (.RoundState round0') with
                    | .error e => (.error e, storage₁)
                    | .ok storage₂ =>
                        next_round_tail env storage₂ current_round_height started_at
                          contributors verifiers
        else
          if ! storage.hasKey (.RoundFile current_round_height) then
            (.error .RoundFileMissing, storage)
          else
            next_round_tail env storage current_round_height started_at
              contributors verifiers

/-- Translation of `Coordinator::try_advance` (coordinator.rs 1171-1236): refuses on a
round-height mismatch between storage and state; otherwise precommits the
next round and invokes `next_round`, committing the precommit on success and
rolling it back on any failure, then saving the state snapshot into the
storage as `next_round` left it — a failure of `next_round` keeps that
function's partial writes (there is no storage rollback). -/
def try_advance (env : Environment) (state : CoordinatorState) (storage : Storage)
    (now : Nat) : Except CoordinatorError Nat × CoordinatorState × Storage :=
  match load_current_round_height storage with
  | .error e => (.error e, state, storage)
  | .ok height_in_storage =>
      if height_in_storage ≠ state.current_round_height then
        (.error .RoundHeightMismatch, state, storage)
      else
        match state.precommit_next_round env (state.current_round_height + 1) with
        | .ok ((contributors, verifiers), state₁) =>
            (match next_round env storage now contributors verifiers with
            | (.ok next_round_height, storage') =>
                let state₂ := state₁.commit_next_round env
                (.ok next_round_height, state₂, state₂.save storage')
            | (.error e, storage'') =>
                let state₂ := state₁.rollback_next_round
                (.error e, state₂, state₂.save storage''))
        | .error e =>
            let state₂ := state.rollback_next_round
            (.error e, state₂, state₂.save storage)

/-- Translation of `Coordinator::unban_participant` (coordinator.rs 652-666): unbans in the
state, saves the snapshot and returns `Ok(())`. -/
def unban_participant (state : CoordinatorState) (storage : Storage)
    (participant : Participant) :
    Except CoordinatorError Unit × CoordinatorState × Storage :=
  let state' := state.unban_participant participant
  (.ok (), state', state'.save storage)

end Coordinator

/-! ### Concrete fixtures used to instantiate the theorems -/

/-- A two-chunk test environment mirroring the testing environments of
coordinator.rs. -/
def env2 : Environment :=
  { number_of_chunks := 2, contributor_lock_chunk_limit := 1,
    verifier_lock_chunk_limit := 1, contributors_per_round := 1,
    verifiers_per_round := 1,
    coordinator_contributors := [.Contributor 0],
    coordinator_verifiers := [.Verifier 0] }

/-- The round-1 contributor of the fixtures. -/
def pC : Participant := .Contributor 1

/-- The round-1 verifier of the fixtures. -/
def pV : Participant := .Verifier 1

/-- The pre-verified initialization contribution of a fixture chunk of
round 1. -/
def fixInit (c : Nat) : Contribution :=
  { contributor_id := none, contributed_location := none, verifier_id := none,
    verified_location := some (Locator.ContributionFile 1 c 0 true).to_path,
    verified := true }

/-- Fixture round 1: contributor `pC` holds the lock on chunk 0. -/
def round1 : Round :=
  { round_height := 1, started_at := 0, finished := false,
    contributor_ids := [pC], verifier_ids := [pV],
    chunks := [
      { chunk_id := 0, lock_holder := some pC, contributions := [fixInit 0] },
      { chunk_id := 1, lock_holder := none, contributions := [fixInit 1] }] }

/-- Fixture info of `pC`: the task `(0, 1)` is pending and the lock on
chunk 0 is held. -/
def infoC : ParticipantInfo :=
  { assigned := [⟨1, 1⟩], pending := [⟨0, 1⟩], completed := [], disposing := [],
    disposed := [], locked_chunks := [0] }

/-- Fixture info of `pV`: no work yet. -/
def infoV : ParticipantInfo :=
  { assigned := [], pending := [], completed := [], disposing := [],
    disposed := [], locked_chunks := [] }

/-- Fixture coordinator state for round 1. -/
def state1 : CoordinatorState :=
  { current_round_height := 1, queue_contributors := [], queue_verifiers := [],
    current_contributors := [(pC, infoC)], current_verifiers := [(pV, infoV)],
    banned := [], dropped := [], aggregating := false, aggregated := false,
    precommit := none }

/-- A stand-in for the external `calculate_hash`: a constant 64-byte digest. -/
def hash0 (_bytes : List Nat) : List Nat := List.replicate 64 0

/-- Fixture storage for round 1: the height pointer, the round state, the
challenge file of chunk 0 and an uploaded response whose first 64 bytes are
all ones — they do not match `hash0` of the challenge. -/
def storage1 : Storage :=
  [(.RoundHeight, .RoundHeight 1),
   (.RoundState 1, .RoundState round1),
   (.ContributionFile 1 0 0 true, .FileBytes [7]),
   (.ContributionFile 1 0 1 false, .FileBytes (List.replicate 64 1))]

/-- Fixture state for the bootstrap scenario: stored height 0, a queued
contributor and verifier, one stale current contributor with remaining work,
nothing aggregated and no precommit. -/
def state0 : CoordinatorState :=
  { current_round_height := 0,
    queue_contributors := [(pC, 10)], queue_verifiers := [(pV, 10)],
    current_contributors := [(.Contributor 9,
      { assigned := [⟨0, 1⟩], pending := [], completed := [], disposing := [],
        disposed := [], locked_chunks := [] })],
    current_verifiers := [],
    banned := [], dropped := [], aggregating := false, aggregated := false,
    precommit := none }

/-- Fixture storage for the bootstrap scenario: only the height pointer, set
to 0. -/
def storage0 : Storage := [(.RoundHeight, .RoundHeight 0)]

/-- Fixture unverified response contribution awaiting verification on
chunk 1. -/
def respContrib : Contribution :=
  { contributor_id := some pC,
    contributed_location := some (Locator.ContributionFile 1 1 1 false).to_path,
    verifier_id := none, verified_location := none, verified := false }

/-- Fixture chunk 1 of the verification scenario: the verifier holds the lock
and the chunk carries the initialization contribution plus one unverified
response; the expected chain length is 3, so this is not the final
contribution. -/
def chunkV : Chunk :=
  { chunk_id := 1, lock_holder := some pV, contributions := [fixInit 1, respContrib] }

/-- Fixture round of the verification scenario, with two contributors (so the
expected number of contributions is 3). -/
def roundV : Round :=
  { round_height := 1, started_at := 0, finished := false,
    contributor_ids := [pC, .Contributor 2], verifier_ids := [pV],
    chunks := [{ chunk_id := 0, lock_holder := none, contributions := [fixInit 0] },
               chunkV] }

/-- Fixture storage of the verification scenario: height, round state, the
response file and the verifier's uploaded next-challenge file whose first 64
bytes equal `hash0` of the response. -/
def storageV : Storage :=
  [(.RoundHeight, .RoundHeight 1),
   (.RoundState 1, .RoundState roundV),
   (.ContributionFile 1 1 1 false, .FileBytes [9]),
   (.ContributionFile 1 1 1 true, .FileBytes (List.replicate 64 0))]

/-- The contribution of `chunkV` once its verification is recorded. -/
def contribV' : Contribution :=
  { respContrib with
    verifier_id := some pV
    verified_location := some (Locator.ContributionFile 1 1 1 true).to_path
    verified := true }

/-- The fixture chunk `chunkV` once its verification is recorded: contribution 1 verified and
the lock released. -/
def chunkV' : Chunk :=
  { chunkV with contributions := chunkV.contributions.set 1 contribV', lock_holder := none }

/-- The fixture round `roundV` once the verification of chunk 1 is recorded. -/
def roundV' : Round := roundV.set_chunk 1 chunkV'

/-- The fixture storage `storageV` once the updated round state is written back. -/
def storageV' : Storage := storageV.setKey (.RoundState 1) (.RoundState roundV')

/-! ### Supporting lemmas about the storage model -/

theorem Storage.getObj_setKey_self (s : Storage) (l : Locator) (o : Object) :
    (s.setKey l o).getObj l = some o := by
  induction s with
  | nil => simp [Storage.setKey, Storage.getObj]
  | cons kv rest ih =>
      obtain ⟨k, v⟩ := kv
      by_cases h : k = l <;> simp [Storage.setKey, Storage.getObj, h, ih]

theorem Storage.getObj_setKey_ne (s : Storage) {l l' : Locator} (o : Object)
    (h : l ≠ l') : (s.setKey l o).getObj l' = s.getObj l' := by
  induction s with
  | nil => simp [Storage.setKey, Storage.getObj, h]
  | cons kv rest ih =>
      obtain ⟨k, v⟩ := kv
      by_cases hk : k = l
      · subst hk
        simp [Storage.setKey, Storage.getObj, h]
      · simp [Storage.setKey, Storage.getObj, hk, ih]

theorem Storage.hasKey_setKey_self (s : Storage) (l : Locator) (o : Object) :
    (s.setKey l o).hasKey l = true := by
  simp [Storage.hasKey, Storage.getObj_setKey_self]

theorem Storage.hasKey_setKey_ne (s : Storage) {l l' : Locator} (o : Object)
    (h : l ≠ l') : (s.setKey l o).hasKey l' = s.hasKey l' := by
  simp [Storage.hasKey, Storage.getObj_setKey_ne s o h]

theorem Storage.setKey_setKey_self (s : Storage) (l : Locator) (o o' : Object) :
    (s.setKey l o).setKey l o' = s.setKey l o' := by
  induction s with
  | nil => simp [Storage.setKey]
  | cons kv rest ih =>
      obtain ⟨k, v⟩ := kv
      by_cases h : k = l <;> simp [Storage.setKey, h, ih]

/-! ### Supporting lemmas about participant-info bookkeeping -/

theorem erase_append_singleton {α : Type} [DecidableEq α] (l : List α) (a : α)
    (h : a ∉ l) : (l ++ [a]).erase a = l := by
  rw [List.erase_append_right _ h, List.erase_cons_head, List.append_nil]

theorem lookup_update_self (m : List (Participant × ParticipantInfo)) (p : Participant)
    (i j : ParticipantInfo) (h : lookup_info m p = some j) :
    lookup_info (update_info m p i) p = some i := by
  induction m with
  | nil => simp [lookup_info] at h
  | cons qj rest ih =>
      obtain ⟨q, j'⟩ := qj
      by_cases hq : q = p
      · simp [lookup_info, update_info, hq]
      · simp [lookup_info, update_info, hq] at h ⊢
        exact ih h

theorem update_update (m : List (Participant × ParticipantInfo)) (p : Participant)
    (i j : ParticipantInfo) : update_info (update_info m p i) p j = update_info m p j := by
  induction m with
  | nil => simp [update_info]
  | cons qj rest ih =>
      obtain ⟨q, j'⟩ := qj
      by_cases hq : q = p <;> simp [update_info, hq, ih]

theorem update_self (m : List (Participant × ParticipantInfo)) (p : Participant)
    (i : ParticipantInfo) (h : lookup_info m p = some i) : update_info m p i = m := by
  induction m with
  | nil => simp [update_info]
  | cons qj rest ih =>
      obtain ⟨q, j'⟩ := qj
      by_cases hq : q = p
      · simp [lookup_info, hq] at h
        simp [update_info, hq, h]
      · simp [lookup_info, hq] at h
        simp [update_info, hq, ih h]

theorem CoordinatorState.get_info_set_info (s : CoordinatorState) (p : Participant)
    (i j : ParticipantInfo) (h : s.get_info p = some j) :
    (s.set_info p i).get_info p = some i := by
  unfold CoordinatorState.get_info CoordinatorState.set_info at *
  by_cases hb : p.is_contributor <;>
    simp only [hb, if_true, if_false, Bool.false_eq_true, ite_true, ite_false] at h ⊢ <;>
    exact lookup_update_self _ _ _ _ h

theorem CoordinatorState.set_info_set_info (s : CoordinatorState) (p : Participant)
    (i j : ParticipantInfo) : (s.set_info p i).set_info p j = s.set_info p j := by
  unfold CoordinatorState.set_info
  by_cases hb : p.is_contributor <;> simp [hb, update_update]

theorem CoordinatorState.set_info_same (s : CoordinatorState) (p : Participant)
    (i : ParticipantInfo) (h : s.get_info p = some i) : s.set_info p i = s := by
  unfold CoordinatorState.get_info at h
  unfold CoordinatorState.set_info
  by_cases hb : p.is_contributor <;>
    simp only [hb, if_true, if_false, Bool.false_eq_true, ite_true, ite_false] at h ⊢ <;>
    rw [update_self _ _ _ h]

/-! ### Claim theorems -/

/-- Claim C10: `current_round_height` returns `Ok(0)` whenever the stored
`RoundHeight` is 0 without checking for round data; for a stored nonzero
height with `RoundState(h)` absent it returns `StorageFailed`; and a
successful nonzero result implies `RoundState(h)` exists in storage. -/
theorem claim_c10 (storage : Storage) :
    (storage.getObj .RoundHeight = some (.RoundHeight 0) →
      Coordinator.current_round_height storage = .ok 0) ∧
    (∀ h : Nat, storage.getObj .RoundHeight = some (.RoundHeight h) → h ≠ 0 →
      storage.hasKey (.RoundState h) = false →
      Coordinator.current_round_height storage = .error .StorageFailed) ∧
    (∀ h : Nat, Coordinator.current_round_height storage = .ok h → h ≠ 0 →
      storage.hasKey (.RoundState h) = true) := by
  refine ⟨?_, ?_, ?_⟩
  · intro h0
    simp [Coordinator.current_round_height, Coordinator.load_current_round_height, h0]
  · intro h hh hne habs
    simp [Coordinator.current_round_height, Coordinator.load_current_round_height,
      hh, hne, habs]
  · intro h hok hne
    unfold Coordinator.current_round_height at hok
    cases hl : Coordinator.load_current_round_height storage with
    | error e => rw [hl] at hok; cases hok
    | ok h₀ =>
        rw [hl] at hok
        by_cases h₀0 : h₀ = 0
        · simp [h₀0] at hok
          exact absurd hok.symm hne
        · simp [h₀0] at hok
          cases hk : storage.hasKey (.RoundState h₀) with
          | true => simp [hk] at hok; rwa [hok] at hk
          | false => simp [hk] at hok

/-- Claim C9: unbanning a participant who is not banned returns `Ok(())` and
leaves the coordinator state unchanged, and (on a duplicate-free banned set)
`unban_participant` composed with itself equals a single call. -/
theorem claim_c9 (state : CoordinatorState) (storage : Storage) (p : Participant) :
    (p ∉ state.banned →
      Coordinator.unban_participant state storage p = (.ok (), state, state.save storage)) ∧
    (state.banned.Nodup →
      Coordinator.unban_participant (Coordinator.unban_participant state storage p).2.1
          (Coordinator.unban_participant state storage p).2.2 p =
        Coordinator.unban_participant state storage p) := by
  constructor
  · intro hnb
    have hs : state.unban_participant p = state := by
      unfold CoordinatorState.unban_participant
      rw [List.erase_of_not_mem hnb]
    simp [Coordinator.unban_participant, hs]
  · intro hnd
    have hnm : p ∉ state.banned.erase p := fun hmem =>
      ((List.Nodup.mem_erase_iff hnd).1 hmem).1 rfl
    unfold Coordinator.unban_participant CoordinatorState.unban_participant
    simp only
    rw [List.erase_of_not_mem hnm]
    unfold CoordinatorState.save
    rw [Storage.setKey_setKey_self]

/-- Claim C10 witness: the bootstrap storage stores height 0, and
`current_round_height` returns `Ok(0)` although no round state exists. -/
theorem claim_c10_witness : Coordinator.current_round_height storage0 = .ok 0 :=
  (claim_c10 storage0).1 (by decide)

/-- Claim C9 witness: unbanning the never-banned contributor of the round-1
fixture is a no-op success. -/
theorem claim_c9_witness :
    Coordinator.unban_participant state1 storage1 pC = (.ok (), state1, state1.save storage1) :=
  (claim_c9 state1 storage1 pC).1 (by decide)

/-- Claim C2: evaluation at the boundary `chunk_id = N` (here `N = 2`).  The
façade guard is `chunk_id > number_of_chunks`, so chunk `N` — one past the
last valid chunk id — passes the `ChunkIdInvalid` validation of
`try_lock_chunk`, `try_contribute` and `try_verify` (failing later with a
different error), while `N + 1` is rejected as `ChunkIdInvalid`. -/
theorem claim_c2_boundary_eval :
    Coordinator.try_lock_chunk env2 storage1 2 pC = .error .ChunkMissing ∧
    Coordinator.try_lock_chunk env2 storage1 3 pC = .error .ChunkIdInvalid ∧
    (Coordinator.try_contribute env2 hash0 state1 storage1 pC 2).1 =
      .error .ContributionFailed ∧
    (Coordinator.try_contribute env2 hash0 state1 storage1 pC 3).1 =
      .error .ChunkIdInvalid ∧
    (Coordinator.try_verify env2 hash0 state1 storage1 pV 2).1 =
      .error .VerificationFailed ∧
    (Coordinator.try_verify env2 hash0 state1 storage1 pV 3).1 =
      .error .ChunkIdInvalid := by
  decide

/-- Claim C1 counterexample: with the round-1 fixture the uploaded response's
first 64 bytes differ from the challenge hash; `try_contribute` returns
`ContributionHashMismatch` and removes the uploaded response file, but the
coordinator state is returned unchanged — the pending task `(0, 1)` of `pC`
stays in the pending bucket and is not moved back to the assigned bucket. -/
theorem claim_c1_counterexample :
    (Coordinator.try_contribute env2 hash0 state1 storage1 pC 0).1 =
      .error .ContributionHashMismatch ∧
    (Coordinator.try_contribute env2 hash0 state1 storage1 pC 0).2.2.hasKey
      (.ContributionFile 1 0 1 false) = false ∧
    (Coordinator.try_contribute env2 hash0 state1 storage1 pC 0).2.1 = state1 ∧
    state1.get_info pC = some infoC ∧
    (⟨0, 1⟩ : Task) ∈ infoC.pending ∧ (⟨0, 1⟩ : Task) ∉ infoC.assigned := by
  decide

/-- Shared helper: under the preconditions reaching the hash check,
`add_contribution` fails with `ContributionHashMismatch` whenever the first
64 bytes of the response file differ from the hash of the challenge file. -/
theorem add_contribution_mismatch (hash : List Nat → List Nat) (storage : Storage)
    (chunk_id : Nat) (p : Participant) (h : Nat) (round : Round) (chunk : Chunk)
    (cid : Nat) (cb rb : List Nat)
    (hh : Coordinator.load_current_round_height storage = .ok h)
    (hr : Coordinator.load_current_round storage = .ok round)
    (hc1 : round.is_contributor p = true)
    (hc2 : round.is_chunk_locked_by chunk_id p = true)
    (hchunk : round.chunk chunk_id = .ok chunk)
    (hnext : chunk.next_contribution_id round.expected_number_of_contributions = .ok cid)
    (hisnext : chunk.is_next_contribution_id cid round.expected_number_of_contributions = true)
    (hcread : storage.reader
      (.ContributionFile h chunk_id chunk.current_contribution_id true) = .ok cb)
    (hrread : storage.reader (.ContributionFile h chunk_id cid false) = .ok rb)
    (hlen : 64 ≤ rb.length)
    (hne : rb.take 64 ≠ hash cb) :
    Coordinator.add_contribution hash storage chunk_id p =
      .error .ContributionHashMismatch := by
  have hlen' : ¬ rb.length < 64 := by omega
  unfold Coordinator.add_contribution
  rw [hh, hr]
  simp [hc1, hc2, hchunk, hnext, hisnext, hcread, hrread, hlen', hne]

/-- Claim C7: `add_contribution` accepts a response only after checking that
its first 64 bytes equal `calculate_hash` of the challenge file's bytes: when
they differ it returns `ContributionHashMismatch` (mutating nothing — the
error carries no updated storage, so the chunk is unchanged), and any
successful result implies the two agree. -/
theorem claim_c7 (hash : List Nat → List Nat) (storage : Storage)
    (chunk_id : Nat) (p : Participant) (h : Nat) (round : Round) (chunk : Chunk)
    (cid : Nat) (cb rb : List Nat)
    (hh : Coordinator.load_current_round_height storage = .ok h)
    (hr : Coordinator.load_current_round storage = .ok round)
    (hc1 : round.is_contributor p = true)
    (hc2 : round.is_chunk_locked_by chunk_id p = true)
    (hchunk : round.chunk chunk_id = .ok chunk)
    (hnext : chunk.next_contribution_id round.expected_number_of_contributions = .ok cid)
    (hisnext : chunk.is_next_contribution_id cid round.expected_number_of_contributions = true)
    (hcread : storage.reader
      (.ContributionFile h chunk_id chunk.current_contribution_id true) = .ok cb)
    (hrread : storage.reader (.ContributionFile h chunk_id cid false) = .ok rb) :
    (64 ≤ rb.length → rb.take 64 ≠ hash cb →
      Coordinator.add_contribution hash storage chunk_id p =
        .error .ContributionHashMismatch) ∧
    (∀ res, Coordinator.add_contribution hash storage chunk_id p = .ok res →
      rb.take 64 = hash cb) := by
  constructor
  · intro hlen hne
    exact add_contribution_mismatch hash storage chunk_id p h round chunk cid cb rb
      hh hr hc1 hc2 hchunk hnext hisnext hcread hrread hlen hne
  · intro res hok
    by_cases heq : rb.take 64 = hash cb
    · exact heq
    · exfalso
      unfold Coordinator.add_contribution at hok
      rw [hh, hr] at hok
      by_cases hlen : rb.length < 64
      · simp [hc1, hc2, hchunk, hnext, hisnext, hcread, hrread, hlen] at hok
      · simp [hc1, hc2, hchunk, hnext, hisnext, hcread, hrread, hlen, heq] at hok

/-- Claim C1 (amended): when the contributor's uploaded response file fails
the challenge-hash check, `try_contribute` returns `ContributionHashMismatch`
and removes the just-uploaded response file, and the coordinator state is
unchanged — in particular the pending task stays pending and is not moved
back to the assigned set. -/
theorem claim_c1_amended (env : Environment) (hash : List Nat → List Nat)
    (state : CoordinatorState) (storage : Storage) (p : Participant)
    (chunk_id : Nat) (h : Nat) (task : Task) (round : Round) (chunk : Chunk)
    (cid : Nat) (cb rb : List Nat)
    (hpc : p.is_contributor = true)
    (hck : ¬ chunk_id > env.number_of_chunks)
    (hcc : state.is_current_contributor p = true)
    (hh : Coordinator.load_current_round_height storage = .ok h)
    (hdisp : state.lookup_disposing_task p chunk_id = .ok none)
    (hpend : state.lookup_pending_task p chunk_id = .ok (some task))
    (hr : Coordinator.load_current_round storage = .ok round)
    (hc1 : round.is_contributor p = true)
    (hc2 : round.is_chunk_locked_by chunk_id p = true)
    (hchunk : round.chunk chunk_id = .ok chunk)
    (hnext : chunk.next_contribution_id round.expected_number_of_contributions = .ok cid)
    (hisnext : chunk.is_next_contribution_id cid round.expected_number_of_contributions = true)
    (hcread : storage.reader
      (.ContributionFile h chunk_id chunk.current_contribution_id true) = .ok cb)
    (hrread : storage.reader (.ContributionFile h chunk_id cid false) = .ok rb)
    (hlen : 64 ≤ rb.length)
    (hne : rb.take 64 ≠ hash cb) :
    Coordinator.try_contribute env hash state storage p chunk_id =
      (.error .ContributionHashMismatch, state,
        storage.removeKey (.ContributionFile h chunk_id task.contribution_id false)) := by
  have hadd := add_contribution_mismatch hash storage chunk_id p h round chunk cid cb rb
    hh hr hc1 hc2 hchunk hnext hisnext hcread hrread hlen hne
  unfold Coordinator.try_contribute
  rw [hh]
  simp [hpc, hck, hcc, hdisp, hpend, hadd]

/-- Claim C1 witness (for the amended statement): the round-1 fixture run,
with every hypothesis discharged concretely. -/
theorem claim_c1_amended_witness :
    Coordinator.try_contribute env2 hash0 state1 storage1 pC 0 =
      (.error .ContributionHashMismatch, state1,
        storage1.removeKey (.ContributionFile 1 0 1 false)) := by
  exact claim_c1_amended env2 hash0 state1 storage1 pC 0 1 ⟨0, 1⟩ round1
    { chunk_id := 0, lock_holder := some pC, contributions := [fixInit 0] } 1 [7]
    (List.replicate 64 1) (by decide) (by decide) (by decide) (by decide) (by decide)
    (by decide) (by decide) (by decide) (by decide) (by decide) (by decide) (by decide)
    (by decide) (by decide) (by decide) (by decide)

/-- Claim C7 witness: the round-1 fixture satisfies the preconditions and the
mismatching upload is rejected with `ContributionHashMismatch`. -/
theorem claim_c7_witness :
    Coordinator.add_contribution hash0 storage1 0 pC = .error .ContributionHashMismatch :=
  (claim_c7 hash0 storage1 0 pC 1 round1
    { chunk_id := 0, lock_holder := some pC, contributions := [fixInit 0] } 1 [7]
    (List.replicate 64 1) (by decide) (by decide) (by decide) (by decide) (by decide)
    (by decide) (by decide) (by decide) (by decide)).1 (by decide) (by decide)

/-- Claim C5: `try_aggregate` returns an error without aggregating when the
round heights in storage and state disagree (`RoundHeightMismatch`), when the
current round is not finished (`RoundNotReady`), when it is already
aggregated (`RoundAlreadyAggregated`), and when `RoundFile(h)` already exists
in storage (`RoundLocatorAlreadyExists`); in each case the storage is
returned unchanged, so no aggregation happened. -/
theorem claim_c5 (env : Environment) (state : CoordinatorState) (storage : Storage) :
    (∀ hs, Coordinator.load_current_round_height storage = .ok hs →
      hs ≠ state.current_round_height →
      Coordinator.try_aggregate env state storage =
        (.error .RoundHeightMismatch, state, storage)) ∧
    (Coordinator.load_current_round_height storage = .ok state.current_round_height →
      state.is_current_round_finished = false →
      Coordinator.try_aggregate env state storage =
        (.error .RoundNotReady, state, storage)) ∧
    (Coordinator.load_current_round_height storage = .ok state.current_round_height →
      state.is_current_round_finished = true →
      state.is_current_round_aggregated = true →
      Coordinator.try_aggregate env state storage =
        (.error .RoundAlreadyAggregated, state, storage)) ∧
    (Coordinator.load_current_round_height storage = .ok state.current_round_height →
      state.is_current_round_finished = true →
      state.is_current_round_aggregated = false →
      state.current_round_height ≠ 0 →
      storage.hasKey (.RoundState state.current_round_height) = true →
      storage.hasKey (.RoundState (state.current_round_height + 1)) = false →
      storage.hasKey (.RoundFile state.current_round_height) = true →
      Coordinator.try_aggregate env state storage =
        (.error .RoundLocatorAlreadyExists, state.aggregating_current_round, storage)) := by
  refine ⟨?_, ?_, ?_, ?_⟩
  · intro hs hload hne
    unfold Coordinator.try_aggregate
    rw [hload]
    simp [hne]
  · intro hload hfin
    unfold Coordinator.try_aggregate
    rw [hload]
    simp [hfin]
  · intro hload hfin hagg
    unfold Coordinator.try_aggregate
    rw [hload]
    simp [hfin, hagg]
  · intro hload hfin hagg hnz hst hst1 hrf
    unfold Coordinator.try_aggregate Coordinator.aggregate_contributions
    rw [hload]
    simp [hfin, hagg, hnz, hst, hst1, hrf]

/-- Claim C5 witness: the round-1 fixture has a pending contributor task, so
the round is not finished and `try_aggregate` refuses with `RoundNotReady`,
leaving state and storage unchanged. -/
theorem claim_c5_witness :
    Coordinator.try_aggregate env2 state1 storage1 = (.error .RoundNotReady, state1, storage1) :=
  (claim_c5 env2 state1 storage1).2.1 (by decide) (by decide)

/-- The chunk returned by `Round::chunk` carries the requested id. -/
theorem Round.chunk_id_of_chunk (r : Round) (chunk_id : Nat) (ch : Chunk)
    (h : r.chunk chunk_id = .ok ch) : ch.chunk_id = chunk_id := by
  unfold Round.chunk at h
  cases hf : r.chunks.find? (fun c => decide (c.chunk_id = chunk_id)) with
  | none => rw [hf] at h; cases h
  | some c =>
      rw [hf] at h
      cases h
      have := List.find?_some hf
      simpa using this

/-- Replacing the found chunk in a chunk list and searching again finds the
replacement. -/
theorem find?_map_replace (l : List Chunk) (chunk_id : Nat) (ch ch' : Chunk)
    (h : l.find? (fun c => decide (c.chunk_id = chunk_id)) = some ch)
    (hid : ch'.chunk_id = chunk_id) :
    (l.map fun c => if c.chunk_id = chunk_id then ch' else c).find?
      (fun c => decide (c.chunk_id = chunk_id)) = some ch' := by
  induction l with
  | nil => simp at h
  | cons c t ih =>
      by_cases hc : c.chunk_id = chunk_id
      · have hhead : (if c.chunk_id = chunk_id then ch' else c) = ch' := if_pos hc
        simp only [List.map_cons, hhead]
        exact List.find?_cons_of_pos _ (by simp [hid])
      · have hhead : (if c.chunk_id = chunk_id then ch' else c) = c := if_neg hc
        rw [List.find?_cons_of_neg _ (by simp [hc])] at h
        simp only [List.map_cons, hhead]
        rw [List.find?_cons_of_neg _ (by simp [hc])]
        exact ih h

/-- Replacing a chunk and looking it up again returns the replacement,
provided the replacement keeps the chunk id. -/
theorem Round.chunk_set_chunk (r : Round) (chunk_id : Nat) (ch ch' : Chunk)
    (h : r.chunk chunk_id = .ok ch) (hid : ch'.chunk_id = chunk_id) :
    (r.set_chunk chunk_id ch').chunk chunk_id = .ok ch' := by
  have hf : r.chunks.find? (fun c => decide (c.chunk_id = chunk_id)) = some ch := by
    unfold Round.chunk at h
    cases hf' : r.chunks.find? (fun c => decide (c.chunk_id = chunk_id)) with
    | none => rw [hf'] at h; cases h
    | some c => rw [hf'] at h; cases h; rfl
  unfold Round.chunk Round.set_chunk
  simp only
  rw [find?_map_replace r.chunks chunk_id ch ch' hf hid]

/-- Claim C3: when `verify_contribution` succeeds in recording a verification
for chunk `c` of round `h`, the verified output locator it selected and
recorded is `ContributionFile(h+1, c, 0, true)` when the verified
contribution is the chunk's final one (`contribution_id = expected - 1`), and
`ContributionFile(h, c, contribution_id, true)` otherwise; the contribution
in the updated round carries that locator. -/
theorem claim_c3 (hash : List Nat → List Nat) (storage : Storage) (chunk_id : Nat)
    (p : Participant) (h : Nat) (round : Round) (chunk : Chunk) (rb nb : List Nat)
    (round' : Round) (storage' : Storage)
    (hh : Coordinator.load_current_round_height storage = .ok h)
    (hr : Coordinator.load_current_round storage = .ok round)
    (hv : round.is_verifier p = true)
    (hl : round.is_chunk_locked_by chunk_id p = true)
    (hchunk : round.chunk chunk_id = .ok chunk)
    (hne : chunk.contributions ≠ [])
    (hrread : storage.reader
      (.ContributionFile h chunk_id chunk.current_contribution_id false) = .ok rb)
    (hnread : storage.reader (Coordinator.next_challenge_locator h chunk_id chunk
      round.expected_number_of_contributions) = .ok nb)
    (hhash : hash rb = nb.take 64)
    (hrec : round.record_verification chunk_id chunk.current_contribution_id p
      (Coordinator.next_challenge_locator h chunk_id chunk
        round.expected_number_of_contributions).to_path = .ok round')
    (hupd : storage.updateObj (.RoundState h) (.RoundState round') = .ok storage') :
    Coordinator.verify_contribution hash storage chunk_id p =
      .ok (chunk.current_contribution_id, storage') ∧
    Coordinator.next_challenge_locator h chunk_id chunk
        round.expected_number_of_contributions =
      (if chunk.current_contribution_id = round.expected_number_of_contributions - 1 then
        Locator.ContributionFile (h + 1) chunk_id 0 true
      else Locator.ContributionFile h chunk_id chunk.current_contribution_id true) ∧
    (∃ ch' contrib', round'.chunk chunk_id = .ok ch' ∧
      ch'.contributions[chunk.current_contribution_id]? = some contrib' ∧
      contrib'.verified_location = some (Coordinator.next_challenge_locator h chunk_id
        chunk round.expected_number_of_contributions).to_path ∧
      contrib'.verified = true) := by
  have hL : chunk.contributions.length ≠ 0 := by
    intro hz
    exact hne (List.length_eq_zero.mp hz)
  have hE : 1 ≤ round.expected_number_of_contributions := by
    unfold Round.expected_number_of_contributions
    omega
  refine ⟨?_, ?_, ?_⟩
  · unfold Coordinator.verify_contribution
    rw [hh, hr]
    simp [hv, hl, hchunk, hrread, hnread, hhash, hrec, hupd]
  · by_cases hLE : chunk.contributions.length = round.expected_number_of_contributions
    · simp [Coordinator.next_challenge_locator, Chunk.only_contributions_complete,
        Chunk.current_contribution_id, hLE]
    · have h2 : ¬ (chunk.contributions.length - 1 =
          round.expected_number_of_contributions - 1) := by omega
      simp [Coordinator.next_challenge_locator, Chunk.only_contributions_complete,
        Chunk.current_contribution_id, hLE, h2]
  · unfold Round.record_verification at hrec
    rw [hchunk] at hrec
    cases hget : chunk.contributions[chunk.current_contribution_id]? with
    | none => simp only [hget] at hrec; cases hrec
    | some contrib =>
        simp only [hget] at hrec
        by_cases hvf : contrib.verified
        · simp [hvf] at hrec
        · simp only [hvf, Bool.false_eq_true, if_neg, ite_false] at hrec
          cases hrec
          have hlt : chunk.current_contribution_id < chunk.contributions.length := by
            unfold Chunk.current_contribution_id
            omega
          refine ⟨_,
            { contrib with
              verifier_id := some p
              verified_location := some (Coordinator.next_challenge_locator h chunk_id
                chunk round.expected_number_of_contributions).to_path
              verified := true },
            Round.chunk_set_chunk round chunk_id chunk _ hchunk
              (Round.chunk_id_of_chunk round chunk_id chunk hchunk), ?_, rfl, rfl⟩
          simpa using List.getElem?_set_eq_of_lt _ hlt

/-- Claim C3 witness: a round-1 fixture where the verifier holds the lock on
chunk 1, whose single (final-pending) contribution chain is mid-round, and
the verification is recorded at the non-final locator. -/
theorem claim_c3_witness :
    Coordinator.verify_contribution hash0 storageV 1 pV = .ok (1, storageV') := by
  have hmain := claim_c3 hash0 storageV 1 pV 1 roundV chunkV [9]
    (List.replicate 64 0) roundV' storageV'
    (by decide) (by decide) (by decide) (by decide) (by decide) (by decide)
    (by decide) (by decide) (by decide) (by decide) (by decide)
  exact hmain.1

/-- Claim C8: when `try_lock` has fetched a task but the chunk-lock
acquisition fails, the task is rolled back from the pending to the assigned
bucket — restoring the pre-step coordinator state exactly — the pre-step
state is persisted to storage, and the underlying error is returned
unchanged. -/
theorem claim_c8 (env : Environment) (state : CoordinatorState) (storage : Storage)
    (p : Participant) (info : ParticipantInfo) (task : Task) (rest : List Task)
    (e : CoordinatorError)
    (hinfo : state.get_info p = some info)
    (hassigned : info.assigned = task :: rest)
    (hnp : task ∉ info.pending)
    (hlock : Coordinator.try_lock_chunk env storage task.chunk_id p = .error e) :
    Coordinator.try_lock env state storage p = (.error e, state, state.save storage) := by
  have hguard : (! state.is_current_contributor p && ! state.is_current_verifier p) = false := by
    unfold CoordinatorState.get_info at hinfo
    unfold CoordinatorState.is_current_contributor CoordinatorState.is_current_verifier
    cases p with
    | Contributor id =>
        simp only [Participant.is_contributor, if_true, ite_true] at hinfo
        simp [Participant.is_contributor, hinfo]
    | Verifier id =>
        simp only [Participant.is_contributor, Bool.false_eq_true, if_false,
          ite_false] at hinfo
        simp [Participant.is_contributor, Participant.is_verifier, hinfo]
  have hfetch : state.fetch_task p =
      .ok (task, state.set_info p
        { info with assigned := rest, pending := info.pending ++ [task] }) := by
    unfold CoordinatorState.fetch_task
    simp only [hinfo, hassigned]
  have hroll : (state.set_info p
      { info with assigned := rest, pending := info.pending ++ [task] }).rollback_pending_task
        p task.chunk_id task.contribution_id = .ok state := by
    unfold CoordinatorState.rollback_pending_task
    rw [CoordinatorState.get_info_set_info state p _ info hinfo]
    have hmem : (⟨task.chunk_id, task.contribution_id⟩ : Task) ∈ info.pending ++ [task] := by
      cases task
      simp
    simp only [hmem, if_true, ite_true]
    rw [CoordinatorState.set_info_set_info]
    have hrec : ({ info with
        assigned := (⟨task.chunk_id, task.contribution_id⟩ : Task) :: rest,
        pending := (info.pending ++ [task]).erase
          ⟨task.chunk_id, task.contribution_id⟩ } : ParticipantInfo) = info := by
      cases task
      rw [erase_append_singleton _ _ hnp]
      cases info
      simp_all
    rw [hrec, CoordinatorState.set_info_same state p info hinfo]
  unfold Coordinator.try_lock
  rw [hguard, hfetch]
  simp only [Bool.false_eq_true, if_false, ite_false]
  rw [hlock, hroll]

/-- Claim C8 witness: in the round-1 fixture `pC` already holds its one
allowed chunk lock, so locking for the fetched task `(1, 1)` fails with
`ChunkLockLimitReached`; `try_lock` rolls the task back and returns the state
unchanged with the error. -/
theorem claim_c8_witness :
    Coordinator.try_lock env2 state1 storage1 pC =
      (.error .ChunkLockLimitReached, state1, state1.save storage1) :=
  claim_c8 env2 state1 storage1 pC infoC ⟨1, 1⟩ [] .ChunkLockLimitReached
    (by decide) (by decide) (by decide) (by decide)

/-- Claim C4 counterexample: from the bootstrap fixture — current round
neither finished nor aggregated and no precommit ready — `try_advance` does
not refuse: it runs and advances to round 1.  The
Finished ∧ Aggregated ∧ Precommit-Ready gate is enforced by `update()`
before calling `try_advance`, not by `try_advance` itself. -/
theorem claim_c4_counterexample :
    state0.is_current_round_finished = false ∧
    state0.is_current_round_aggregated = false ∧
    state0.precommit = none ∧
    (Coordinator.try_advance env2 state0 storage0 0).1 = .ok 1 := by
  decide

/-- Rolling back a precommit that was never made leaves the state unchanged. -/
theorem rollback_of_precommit_none (s : CoordinatorState) (h : s.precommit = none) :
    s.rollback_next_round = s := by
  unfold CoordinatorState.rollback_next_round
  rw [← h]

/-- A successful precommit starting from no precommit only records the chosen
rosters in the `precommit` field. -/
theorem precommit_inv (state : CoordinatorState) (env : Environment) (h : Nat)
    (cs vs : List Participant) (state₁ : CoordinatorState)
    (hpre : state.precommit = none)
    (hok : state.precommit_next_round env h = .ok ((cs, vs), state₁)) :
    state₁ = { state with precommit := some (cs, vs) } := by
  unfold CoordinatorState.precommit_next_round at hok
  simp only [hpre, Option.isSome_none, Bool.false_eq_true, if_false, ite_false] at hok
  split at hok
  · cases hok
  · split at hok
    · cases hok
    · split at hok
      · cases hok
      · injection hok with h1
        injection h1 with h2 h3
        injection h2 with hcs hvs
        subst hcs
        subst hvs
        exact h3.symm

/-- Claim C4 (amended): `try_advance` itself refuses only when storage and
state disagree on the round height (the Finished ∧ Aggregated ∧
Precommit-Ready gate lives in `update()`, which checks it before calling
`try_advance`).  When the heights agree it precommits and invokes
`next_round` with the precommitted rosters: on success it commits the
precommit, advancing the state to the new height; on any failure of the
precommit or of `next_round` it rolls the precommit back — leaving the
current round's coordinator state unchanged — and returns the error, saving
the state snapshot into the storage as `next_round` left it (partial storage
writes of a failed `next_round` are kept; there is no storage rollback). -/
theorem claim_c4_amended (env : Environment) (state : CoordinatorState)
    (storage : Storage) (now : Nat) :
    (∀ hs, Coordinator.load_current_round_height storage = .ok hs →
      hs ≠ state.current_round_height →
      Coordinator.try_advance env state storage now =
        (.error .RoundHeightMismatch, state, storage)) ∧
    (Coordinator.load_current_round_height storage = .ok state.current_round_height →
      state.precommit = none →
      (∀ e, state.precommit_next_round env (state.current_round_height + 1) = .error e →
        Coordinator.try_advance env state storage now =
          (.error e, state, state.save storage)) ∧
      (∀ cs vs state₁,
        state.precommit_next_round env (state.current_round_height + 1) =
          .ok ((cs, vs), state₁) →
        (∀ e storage'',
          Coordinator.next_round env storage now cs vs = (.error e, storage'') →
          Coordinator.try_advance env state storage now =
            (.error e, state, state.save storage'')) ∧
        (∀ nh storage',
          Coordinator.next_round env storage now cs vs = (.ok nh, storage') →
          Coordinator.try_advance env state storage now =
            (.ok nh, state₁.commit_next_round env,
              (state₁.commit_next_round env).save storage') ∧
          (state₁.commit_next_round env).current_round_height =
            state.current_round_height + 1))) := by
  constructor
  · intro hs hload hne
    unfold Coordinator.try_advance
    rw [hload]
    simp [hne]
  · intro hload hpre
    have hrb := rollback_of_precommit_none state hpre
    constructor
    · intro e hpc
      unfold Coordinator.try_advance
      rw [hload]
      simp [hpc, hrb]
    · intro cs vs state₁ hok
      have hshape := precommit_inv state env (state.current_round_height + 1) cs vs
        state₁ hpre hok
      have hrb₁ : state₁.rollback_next_round = state := by
        rw [hshape]
        unfold CoordinatorState.rollback_next_round
        simp only
        rw [← hpre]
      constructor
      · intro e storage'' hnext
        unfold Coordinator.try_advance
        rw [hload]
        simp [hok, hnext, hrb₁]
      · intro nh storage' hnext
        constructor
        · unfold Coordinator.try_advance
          rw [hload]
          simp [hok, hnext]
        · rw [hshape]
          simp [CoordinatorState.commit_next_round]

/-- Claim C4 witness (for the amended statement): with state at round 1 and
storage at round 0, `try_advance` refuses with `RoundHeightMismatch` leaving
state and storage untouched. -/
theorem claim_c4_amended_witness :
    Coordinator.try_advance env2 state1 storage0 0 =
      (.error .RoundHeightMismatch, state1, storage0) :=
  (claim_c4_amended env2 state1 storage0 0).1 0 (by decide) (by decide)

/-- The initialization loop of `next_round` succeeds on pairwise-distinct
chunks whose contribution files do not yet exist; afterwards both initial
contribution files exist for every processed chunk, and every other storage
key is untouched. -/
theorem init_chunks_spec (h : Nat) (l : List Nat) (storage : Storage)
    (hnd : l.Nodup)
    (habs : ∀ c ∈ l, storage.hasKey (.ContributionFile h c 0 true) = false ∧
      storage.hasKey (.ContributionFile (h + 1) c 0 true) = false) :
    ∃ storage', Coordinator.init_chunks h storage l = (.ok (), storage') ∧
      (∀ c ∈ l, storage'.hasKey (.ContributionFile h c 0 true) = true ∧
        storage'.hasKey (.ContributionFile (h + 1) c 0 true) = true) ∧
      (∀ loc : Locator, (∀ c ∈ l, loc ≠ .ContributionFile h c 0 true ∧
        loc ≠ .ContributionFile (h + 1) c 0 true) →
        storage'.getObj loc = storage.getObj loc) := by
  induction l generalizing storage with
  | nil =>
      exact ⟨storage, rfl, by simp, fun loc _ => rfl⟩
  | cons c rest ih =>
      obtain ⟨habsA, habsB⟩ := habs c (List.mem_cons_self c rest)
      have hAB : (Locator.ContributionFile h c 0 true) ≠
          .ContributionFile (h + 1) c 0 true := by
        intro hc
        injection hc with h1
        omega
      have hcr : c ∉ rest := (List.nodup_cons.mp hnd).1
      have hndr : rest.Nodup := (List.nodup_cons.mp hnd).2
      set storage₁ := Initialization.run storage h c with hst1
      have hkeyA : storage₁.hasKey (.ContributionFile h c 0 true) = true := by
        rw [hst1]
        unfold Initialization.run
        rw [Storage.hasKey_setKey_ne _ _ hAB.symm]
        exact Storage.hasKey_setKey_self _ _ _
      have hkeyB : storage₁.hasKey (.ContributionFile (h + 1) c 0 true) = true := by
        rw [hst1]
        unfold Initialization.run
        exact Storage.hasKey_setKey_self _ _ _
      have hframe₁ : ∀ loc : Locator, loc ≠ .ContributionFile h c 0 true →
          loc ≠ .ContributionFile (h + 1) c 0 true →
          storage₁.getObj loc = storage.getObj loc := by
        intro loc hA hB
        rw [hst1]
        unfold Initialization.run
        rw [Storage.getObj_setKey_ne _ _ (Ne.symm hB), Storage.getObj_setKey_ne _ _ (Ne.symm hA)]
      have habsr : ∀ c' ∈ rest, storage₁.hasKey (.ContributionFile h c' 0 true) = false ∧
          storage₁.hasKey (.ContributionFile (h + 1) c' 0 true) = false := by
        intro c' hc'
        have hcc : c' ≠ c := fun hcc => hcr (hcc ▸ hc')
        have h1 : (Locator.ContributionFile h c' 0 true) ≠ .ContributionFile h c 0 true := by
          intro hc
          injection hc with _ h2
          exact hcc h2
        have h2 : (Locator.ContributionFile h c' 0 true) ≠
            .ContributionFile (h + 1) c 0 true := by
          intro hc
          injection hc with h3
          omega
        have h3 : (Locator.ContributionFile (h + 1) c' 0 true) ≠
            .ContributionFile h c 0 true := by
          intro hc
          injection hc with h4
          omega
        have h4 : (Locator.ContributionFile (h + 1) c' 0 true) ≠
            .ContributionFile (h + 1) c 0 true := by
          intro hc
          injection hc with _ h5
          exact hcc h5
        unfold Storage.hasKey
        rw [hframe₁ _ h1 h2, hframe₁ _ h3 h4]
        exact habs c' (List.mem_cons_of_mem c hc')
      obtain ⟨storage', hok, hpost, hframe⟩ := ih storage₁ hndr habsr
      refine ⟨storage', ?_, ?_, ?_⟩
      · unfold Coordinator.init_chunks
        rw [habsA, habsB]
        simp only [Bool.false_eq_true, if_false, ite_false, ← hst1]
        rw [hkeyA, hkeyB]
        simpa using hok
      · intro c' hc'
        rcases List.mem_cons.mp hc' with hc' | hc'
        · subst hc'
          have hfA : ∀ c'' ∈ rest, (Locator.ContributionFile h c' 0 true) ≠
              .ContributionFile h c'' 0 true ∧
              (Locator.ContributionFile h c' 0 true) ≠
              .ContributionFile (h + 1) c'' 0 true := by
            intro c'' hc''
            have hne : c' ≠ c'' := fun hx => hcr (hx ▸ hc'')
            constructor
            · intro hc; injection hc with _ hx; exact hne hx
            · intro hc; injection hc with hx; omega
          have hfB : ∀ c'' ∈ rest, (Locator.ContributionFile (h + 1) c' 0 true) ≠
              .ContributionFile h c'' 0 true ∧
              (Locator.ContributionFile (h + 1) c' 0 true) ≠
              .ContributionFile (h + 1) c'' 0 true := by
            intro c'' hc''
            have hne : c' ≠ c'' := fun hx => hcr (hx ▸ hc'')
            constructor
            · intro hc; injection hc with hx; omega
            · intro hc; injection hc with _ hx; exact hne hx
          constructor
          · unfold Storage.hasKey
            rw [hframe _ hfA]
            exact hkeyA
          · unfold Storage.hasKey
            rw [hframe _ hfB]
            exact hkeyB
        · exact hpost c' hc'
      · intro loc hloc
        have hlocr : ∀ c' ∈ rest, loc ≠ .ContributionFile h c' 0 true ∧
            loc ≠ .ContributionFile (h + 1) c' 0 true := fun c' hc' =>
          hloc c' (List.mem_cons_of_mem c hc')
        obtain ⟨hA, hB⟩ := hloc c (List.mem_cons_self c rest)
        rw [hframe loc hlocr, hframe₁ loc hA hB]

/-- A stored round height of `h` means the `RoundHeight` key holds `h`. -/
theorem load_height_inv (storage : Storage) (h : Nat)
    (hh : Coordinator.load_current_round_height storage = .ok h) :
    storage.getObj .RoundHeight = some (.RoundHeight h) := by
  unfold Coordinator.load_current_round_height at hh
  cases hg : storage.getObj .RoundHeight with
  | none => rw [hg] at hh; cases hh
  | some o =>
      rw [hg] at hh
      cases o with
      | RoundHeight h' => cases hh; rfl
      | CoordinatorState s => cases hh
      | RoundState r => cases hh
      | FileBytes b => cases hh

/-- Round 0 — whose chunks carry only the pre-verified initialization
contribution and which expects exactly one contribution per chunk — is sealed
as finished by `try_finish`. -/
theorem round_new_finished (env : Environment) (sa : Nat) (v : Participant) :
    ((Round.new env 0 sa [] [v]).try_finish).finished = true := by
  have hcomp : (Round.new env 0 sa [] [v]).is_complete = true := by
    unfold Round.is_complete Round.new Round.expected_number_of_contributions
    simp [List.all_eq_true]
  unfold Round.try_finish
  rw [hcomp]
  simp

/-- Claim C6: with the stored round height 0 and a clean storage, `next_round`
runs initialization once per chunk and succeeds: afterwards both
`ContributionFile(0, c, 0, true)` and `ContributionFile(1, c, 0, true)` exist
for every chunk `c < N`, round 0 is stored marked finished, the stored
`RoundHeight` is 1, and no aggregation happened — the `RoundFile(0)` key is
exactly as before. -/
theorem claim_c6 (env : Environment) (storage : Storage) (sa : Nat)
    (cs vs : List Participant) (v : Participant)
    (hcs : cs ≠ []) (hvs : vs ≠ [])
    (hv : env.coordinator_verifiers.head? = some v)
    (hh : Coordinator.load_current_round_height storage = .ok 0)
    (hr0 : storage.hasKey (.RoundState 0) = false)
    (hr1 : storage.hasKey (.RoundState 1) = false)
    (hcf : ∀ c, c < env.number_of_chunks →
      storage.hasKey (.ContributionFile 0 c 0 true) = false ∧
      storage.hasKey (.ContributionFile 1 c 0 true) = false) :
    ∃ storage',
      Coordinator.next_round env storage sa cs vs = (.ok 1, storage') ∧
      (∀ c, c < env.number_of_chunks →
        storage'.hasKey (.ContributionFile 0 c 0 true) = true ∧
        storage'.hasKey (.ContributionFile 1 c 0 true) = true) ∧
      (∃ r0 : Round, storage'.getObj (.RoundState 0) = some (.RoundState r0) ∧
        r0.finished = true) ∧
      storage'.getObj .RoundHeight = some (.RoundHeight 1) ∧
      storage'.getObj (.RoundFile 0) = storage.getObj (.RoundFile 0) := by
  have hgr := load_height_inv storage 0 hh
  have hcse : cs.isEmpty = false := by
    cases cs with
    | nil => exact absurd rfl hcs
    | cons a t => rfl
  have hvse : vs.isEmpty = false := by
    cases vs with
    | nil => exact absurd rfl hvs
    | cons a t => rfl
  obtain ⟨storage₁, hok₁, hpost₁, hframe₁⟩ := init_chunks_spec 0
    (List.range env.number_of_chunks) storage (List.nodup_range _)
    (fun c hc => hcf c (List.mem_range.mp hc))
  have hnotCF : ∀ l : Locator, (∀ n c i b, l ≠ .ContributionFile n c i b) →
      storage₁.getObj l = storage.getObj l := fun l hl =>
    hframe₁ l (fun c _ => ⟨hl 0 c 0 true, hl 1 c 0 true⟩)
  have hfRS0 : storage₁.getObj (.RoundState 0) = storage.getObj (.RoundState 0) :=
    hnotCF _ (fun n c i b hc => Locator.noConfusion hc)
  have hfRS1 : storage₁.getObj (.RoundState 1) = storage.getObj (.RoundState 1) :=
    hnotCF _ (fun n c i b hc => Locator.noConfusion hc)
  have hfRH : storage₁.getObj .RoundHeight = storage.getObj .RoundHeight :=
    hnotCF _ (fun n c i b hc => Locator.noConfusion hc)
  have hfRF : storage₁.getObj (.RoundFile 0) = storage.getObj (.RoundFile 0) :=
    hnotCF _ (fun n c i b hc => Locator.noConfusion hc)
  set round0 : Round := (Round.new env 0 sa [] [v]).try_finish with hround0
  set storage₂ := storage₁.setKey (.RoundState 0) (.RoundState round0) with hst2
  have hk1RS0 : storage₁.hasKey (.RoundState 0) = false := by
    unfold Storage.hasKey
    rw [hfRS0]
    exact hr0
  have hins0 : storage₁.insertObj (.RoundState 0) (.RoundState round0) = .ok storage₂ := by
    unfold Storage.insertObj
    rw [hk1RS0]
    rfl
  have hRS0neRS1 : (Locator.RoundState 0) ≠ .RoundState 1 := by decide
  have hk2RS1 : storage₂.hasKey (.RoundState 1) = false := by
    rw [hst2, Storage.hasKey_setKey_ne _ _ hRS0neRS1]
    unfold Storage.hasKey
    rw [hfRS1]
    exact hr1
  have hall : ((List.range env.number_of_chunks).all fun c =>
      storage₂.hasKey (.ContributionFile 1 c 0 true)) = true := by
    rw [List.all_eq_true]
    intro c hc
    have h1 : (Locator.RoundState 0) ≠ .ContributionFile 1 c 0 true :=
      fun hx => Locator.noConfusion hx
    rw [hst2, Storage.hasKey_setKey_ne _ _ h1]
    exact (hpost₁ c hc).2
  set round1 : Round := Round.new env 1 sa cs vs with hround1
  set storage₃ := storage₂.setKey (.RoundState 1) (.RoundState round1) with hst3
  have hins1 : storage₂.insertObj (.RoundState 1) (.RoundState round1) = .ok storage₃ := by
    unfold Storage.insertObj
    rw [hk2RS1]
    rfl
  have hRS1neRH : (Locator.RoundState 1) ≠ .RoundHeight := by decide
  have hRS0neRH : (Locator.RoundState 0) ≠ .RoundHeight := by decide
  have hk3RH : storage₃.hasKey .RoundHeight = true := by
    rw [hst3, Storage.hasKey_setKey_ne _ _ hRS1neRH, hst2,
      Storage.hasKey_setKey_ne _ _ hRS0neRH]
    unfold Storage.hasKey
    rw [hfRH, hgr]
    rfl
  set storage₄ := storage₃.setKey .RoundHeight (.RoundHeight 1) with hst4
  have hupd : storage₃.updateObj .RoundHeight (.RoundHeight 1) = .ok storage₄ := by
    unfold Storage.updateObj
    rw [hk3RH]
    rfl
  have htail : Coordinator.next_round_tail env storage₂ 0 sa cs vs = (.ok 1, storage₄) := by
    unfold Coordinator.next_round_tail
    simp only [Nat.zero_add]
    rw [hk2RS1]
    simp only [Bool.false_eq_true, if_false, ite_false]
    rw [hall]
    simp only [Bool.not_true, Bool.false_eq_true, if_false, ite_false]
    simp only [← hround1, hins1, hupd]
  have hmain : Coordinator.next_round env storage sa cs vs = (.ok 1, storage₄) := by
    unfold Coordinator.next_round
    rw [hcse, hvse]
    simp only [Bool.false_eq_true, if_false, ite_false]
    rw [hh]
    simp only [if_pos rfl, Nat.zero_add]
    rw [hr0, hr1]
    simp only [Bool.false_eq_true, if_false, ite_false]
    rw [hv]
    simp only [hok₁, ← hround0, hins0, htail, if_true, ite_true]
  refine ⟨storage₄, hmain, ?_, ?_, ?_, ?_⟩
  · intro c hc
    have h1 : (Locator.RoundHeight) ≠ .ContributionFile 0 c 0 true :=
      fun hx => Locator.noConfusion hx
    have h2 : (Locator.RoundHeight) ≠ .ContributionFile 1 c 0 true :=
      fun hx => Locator.noConfusion hx
    have h3 : (Locator.RoundState 1) ≠ .ContributionFile 0 c 0 true :=
      fun hx => Locator.noConfusion hx
    have h4 : (Locator.RoundState 1) ≠ .ContributionFile 1 c 0 true :=
      fun hx => Locator.noConfusion hx
    have h5 : (Locator.RoundState 0) ≠ .ContributionFile 0 c 0 true :=
      fun hx => Locator.noConfusion hx
    have h6 : (Locator.RoundState 0) ≠ .ContributionFile 1 c 0 true :=
      fun hx => Locator.noConfusion hx
    rw [hst4, Storage.hasKey_setKey_ne _ _ h1, Storage.hasKey_setKey_ne _ _ h2,
      hst3, Storage.hasKey_setKey_ne _ _ h3, Storage.hasKey_setKey_ne _ _ h4,
      hst2, Storage.hasKey_setKey_ne _ _ h5, Storage.hasKey_setKey_ne _ _ h6]
    exact ⟨(hpost₁ c (List.mem_range.mpr hc)).1, (hpost₁ c (List.mem_range.mpr hc)).2⟩
  · have h1 : (Locator.RoundHeight) ≠ .RoundState 0 := by decide
    have h2 : (Locator.RoundState 1) ≠ .RoundState 0 := by decide
    refine ⟨round0, ?_, ?_⟩
    · rw [hst4, Storage.getObj_setKey_ne _ _ h1, hst3, Storage.getObj_setKey_ne _ _ h2,
        hst2, Storage.getObj_setKey_self]
    · rw [hround0]
      exact round_new_finished env sa v
  · rw [hst4, Storage.getObj_setKey_self]
  · have h1 : (Locator.RoundHeight) ≠ .RoundFile 0 := by decide
    have h2 : (Locator.RoundState 1) ≠ .RoundFile 0 := by decide
    have h3 : (Locator.RoundState 0) ≠ .RoundFile 0 := by decide
    rw [hst4, Storage.getObj_setKey_ne _ _ h1, hst3, Storage.getObj_setKey_ne _ _ h2,
      hst2, Storage.getObj_setKey_ne _ _ h3, hfRF]

/-- Claim C6 witness: bootstrapping from the clean height-0 fixture with the
two-chunk environment. -/
theorem claim_c6_witness :
    ∃ storage',
      Coordinator.next_round env2 storage0 0 [pC] [pV] = (.ok 1, storage') ∧
      (∀ c, c < env2.number_of_chunks →
        storage'.hasKey (.ContributionFile 0 c 0 true) = true ∧
        storage'.hasKey (.ContributionFile 1 c 0 true) = true) ∧
      (∃ r0 : Round, storage'.getObj (.RoundState 0) = some (.RoundState r0) ∧
        r0.finished = true) ∧
      storage'.getObj .RoundHeight = some (.RoundHeight 1) ∧
      storage'.getObj (.RoundFile 0) = storage0.getObj (.RoundFile 0) :=
  claim_c6 env2 storage0 0 [pC] [pV] (.Verifier 0) (by decide) (by decide) (by decide)
    (by decide) (by decide) (by decide) (by decide)

end Ceremony
